import Mathlib

/-!
Shallow embedding of the FLIP/PIC fluid simulator in `src/main.rs`
(`fluid_microbit`).  The f32 arithmetic of the source is modelled by exact
rational arithmetic (ℚ); the single call to `f32::sqrt` (in
`resolve_particle_collisions`) is modelled by an abstract oracle parameter
`sq : ℚ → ℚ`.  Rust's saturating f32-to-usize cast (`as usize`) applied to an
already-floored value is modelled by `Int.toNat ∘ Int.floor`.  Grids are
total functions from the row-major cell index to ℚ; the source arrays hold
the indices 0 .. NUM_CELLS-1 and the embedded code only ever reads or writes
such indices on the inputs the program produces.
-/

/-- Simulation constants from main.rs lines 20-34. -/
abbrev SIM_WIDTH : Nat := 5

abbrev SIM_HEIGHT : Nat := 5

/-- Grid width including the solid border (main.rs line 23). -/
abbrev WIDTH : Nat := SIM_WIDTH + 2

/-- Grid height including the solid border (main.rs line 24). -/
abbrev HEIGHT : Nat := SIM_HEIGHT + 2

abbrev NUM_CELLS : Nat := WIDTH * HEIGHT

abbrev NUM_PARTICLES : Nat := 25

/-- Time step, main.rs line 28. -/
def DT : ℚ := 6/10

/-- Particle radius, main.rs line 29. -/
def PARTICLE_RADIUS : ℚ := 2/10

abbrev COLLISION_ITERS : Nat := 8

abbrev INCOMPRESSIBILITY_ITERATIONS : Nat := 10

/-- Over-relaxation factor, main.rs line 32. -/
def OVER_RELAXATION : ℚ := 19/10

/-- FLIP/PIC blend ratio, main.rs line 33. -/
def FLIP_RATIO : ℚ := 8/10

/-- Velocity damping factor, main.rs line 34. -/
def DAMPING : ℚ := 99/100

/-- Cell classification, main.rs lines 36-41. -/
inductive CellType where
  | Fluid : CellType
  | Air : CellType
  | Solid : CellType
deriving DecidableEq, Repr

/-- A point particle, main.rs lines 43-49. -/
structure Particle where
  x : ℚ
  y : ℚ
  vx : ℚ
  vy : ℚ
deriving DecidableEq, Repr, Inhabited

/-- A scalar field indexed by row-major cell index. -/
abbrev Grid := Nat → ℚ

/-- Point update of a grid (models one array store). -/
def upd (f : Grid) (i : Nat) (a : ℚ) : Grid := fun j => if j = i then a else f j

/-- Point update of the cell-type array. -/
def updCT (f : Nat → CellType) (i : Nat) (t : CellType) : Nat → CellType :=
  fun j => if j = i then t else f j

/-- The simulation state, main.rs lines 51-73. -/
structure FluidSim where
  particles : List Particle
  u : Grid
  v : Grid
  prev_u : Grid
  prev_v : Grid
  p : Grid
  s : Grid
  cell_types : Nat → CellType
  display_density : Grid

/-- Models the saturating conversion of an already-floored f32 to usize:
negative values collapse to 0 (Rust `as usize` saturates). -/
def floorToUsize (q : ℚ) : Nat := (Int.floor q).toNat

/-- The staggered-cell data a particle produces for one sub-grid: the
(saturated) lattice cell indices and the fractional offsets, which are
computed from the unsaturated floor (main.rs lines 180-186, 208-214). -/
structure StagIdx where
  cx : Nat
  cy : Nat
  dx : ℚ
  dy : ℚ
deriving Repr

/-- Staggered cell of a particle on the horizontal-velocity sub-grid
(main.rs lines 180-186 and 295-301). -/
def u_stag (p : Particle) : StagIdx :=
  let cell_x_f : ℤ := Int.floor p.x
  let cell_y_f : ℤ := Int.floor (p.y - 1/2)
  ⟨cell_x_f.toNat, cell_y_f.toNat, p.x - (cell_x_f : ℚ), (p.y - 1/2) - (cell_y_f : ℚ)⟩

/-- Staggered cell of a particle on the vertical-velocity sub-grid
(main.rs lines 208-214 and 324-330). -/
def v_stag (p : Particle) : StagIdx :=
  let cell_x_f : ℤ := Int.floor (p.x - 1/2)
  let cell_y_f : ℤ := Int.floor p.y
  ⟨cell_x_f.toNat, cell_y_f.toNat, (p.x - 1/2) - (cell_x_f : ℚ), p.y - (cell_y_f : ℚ)⟩

/-- The out-of-bounds guard used by both scatter loops and the gather:
cell_x + 1 >= WIDTH || cell_y + 1 >= HEIGHT (main.rs lines 188, 215, 302, 331). -/
def StagIdx.oob (c : StagIdx) : Prop := WIDTH ≤ c.cx + 1 ∨ HEIGHT ≤ c.cy + 1

instance (c : StagIdx) : Decidable c.oob := by
  unfold StagIdx.oob; exact inferInstance

/-- Bilinear weight of the bottom-left node (main.rs line 190). -/
def bottom_left_w (c : StagIdx) : ℚ := (1 - c.dx) * (1 - c.dy)

/-- Bilinear weight of the bottom-right node (main.rs line 191). -/
def bottom_right_w (c : StagIdx) : ℚ := c.dx * (1 - c.dy)

/-- Bilinear weight of the top-left node (main.rs line 192). -/
def top_left_w (c : StagIdx) : ℚ := (1 - c.dx) * c.dy

/-- Bilinear weight of the top-right node (main.rs line 193). -/
def top_right_w (c : StagIdx) : ℚ := c.dx * c.dy

/-- Row-major index of the bottom-left node (main.rs line 195). -/
def bottom_left_idx (c : StagIdx) : Nat := c.cy * WIDTH + c.cx

/-- Row-major index of the bottom-right node (main.rs line 196). -/
def bottom_right_idx (c : StagIdx) : Nat := c.cy * WIDTH + (c.cx + 1)

/-- Row-major index of the top-left node (main.rs line 197). -/
def top_left_idx (c : StagIdx) : Nat := (c.cy + 1) * WIDTH + c.cx

/-- Row-major index of the top-right node (main.rs line 198). -/
def top_right_idx (c : StagIdx) : Nat := (c.cy + 1) * WIDTH + (c.cx + 1)

/-- One accumulation into the (velocity, weight) pair at one node
(one line of main.rs 200-203 / 227-230). -/
def scatterAt (acc : Grid × Grid) (idx : Nat) (vel w : ℚ) : Grid × Grid :=
  (upd acc.1 idx (acc.1 idx + vel * w), upd acc.2 idx (acc.2 idx + w))

/-- The body of one particle's bilinear scatter onto one staggered sub-grid
(main.rs lines 179-204 and 207-231; both loops have the same shape). -/
def scatterStep (c : StagIdx) (vel : ℚ) (acc : Grid × Grid) : Grid × Grid :=
  if c.oob then acc
  else
    scatterAt
      (scatterAt
        (scatterAt
          (scatterAt acc (bottom_left_idx c) vel (bottom_left_w c))
          (bottom_right_idx c) vel (bottom_right_w c))
        (top_left_idx c) vel (top_left_w c))
      (top_right_idx c) vel (top_right_w c)

/-- Scatter of all particles' horizontal velocities (main.rs lines 179-204). -/
def scatterU (ps : List Particle) (acc : Grid × Grid) : Grid × Grid :=
  ps.foldl (fun acc p => scatterStep (u_stag p) p.vx acc) acc

/-- Scatter of all particles' vertical velocities (main.rs lines 207-231). -/
def scatterV (ps : List Particle) (acc : Grid × Grid) : Grid × Grid :=
  ps.foldl (fun acc p => scatterStep (v_stag p) p.vy acc) acc

/-- Per-node weight normalization (main.rs lines 233-236). -/
def normalizeGrid (acc : Grid × Grid) : Grid :=
  fun i => if 0 < acc.2 i then acc.1 i / acc.2 i else acc.1 i

/-- Base classification: Solid where s = 0, Air elsewhere (main.rs lines 158-164). -/
def classifyBase (s : Grid) : Nat → CellType :=
  fun i => if s i = 0 then CellType.Solid else CellType.Air

/-- The per-particle body of the Fluid-marking loop (main.rs lines 167-176). -/
def markStep (ct : Nat → CellType) (p : Particle) : Nat → CellType :=
  let cell_x := floorToUsize p.x
  let cell_y := floorToUsize p.y
  if cell_x < WIDTH ∧ cell_y < HEIGHT then
    if ct (cell_y * WIDTH + cell_x) ≠ CellType.Solid then
      updCT ct (cell_y * WIDTH + cell_x) CellType.Fluid
    else ct
  else ct

/-- Marking of particle-containing open cells as Fluid (main.rs lines 167-176). -/
def markFluid (ps : List Particle) (ct : Nat → CellType) : Nat → CellType :=
  ps.foldl markStep ct

/-- The body of the boundary-enforcement double loop (main.rs lines 241-247). -/
def enforceStep (ct : Nat → CellType) (uv : Grid × Grid) (j i : Nat) : Grid × Grid :=
  let idx := j * WIDTH + i
  if ct idx = CellType.Solid then
    let u1 := upd uv.1 idx 0
    let v1 := upd uv.2 idx 0
    let u2 := if i < WIDTH - 1 then upd u1 (idx + 1) 0 else u1
    let v2 := if j < HEIGHT - 1 then upd v1 (idx + WIDTH) 0 else v1
    (u2, v2)
  else uv

/-- Boundary enforcement after P2G (main.rs lines 238-249). -/
def enforceBoundary (ct : Nat → CellType) (uv : Grid × Grid) : Grid × Grid :=
  (List.range HEIGHT).foldl
    (fun uv j => (List.range WIDTH).foldl (fun uv i => enforceStep ct uv j i) uv)
    uv

/-- Particle-to-grid transfer (main.rs lines 146-250): snapshot previous
velocities, clear the velocity grids and weights, classify cells, scatter
both velocity components, normalize by accumulated weight, and enforce the
solid-boundary conditions. -/
def applyParticlesToGrid (g : FluidSim) : FluidSim :=
  let ct := markFluid g.particles (classifyBase g.s)
  let uAcc := scatterU g.particles (fun _ => 0, fun _ => 0)
  let vAcc := scatterV g.particles (fun _ => 0, fun _ => 0)
  let uv := enforceBoundary ct (normalizeGrid uAcc, normalizeGrid vAcc)
  { g with
    prev_u := g.u
    prev_v := g.v
    u := uv.1
    v := uv.2
    cell_types := ct }

/-- The body of the relaxation sweep at one interior cell
(main.rs lines 262-283).  The projection state is the triple
(pressure, u, v). -/
def projectCell (s : Grid) (ct : Nat → CellType) (st : Grid × Grid × Grid)
    (idx : Nat) : Grid × Grid × Grid :=
  if ct idx ≠ CellType.Fluid then st
  else
    let s_left := s (idx - 1)
    let s_right := s (idx + 1)
    let s_down := s (idx - WIDTH)
    let s_up := s (idx + WIDTH)
    let s_sum := s_left + s_right + s_down + s_up
    if s_sum = 0 then st
    else
      let divergence := st.2.1 (idx + 1) - st.2.1 idx + st.2.2 (idx + WIDTH) - st.2.2 idx
      let pressure_correction := -divergence / s_sum * OVER_RELAXATION
      (upd st.1 idx (st.1 idx + pressure_correction),
       upd (upd st.2.1 idx (st.2.1 idx - pressure_correction * s_left))
         (idx + 1) (st.2.1 (idx + 1) + pressure_correction * s_right),
       upd (upd st.2.2 idx (st.2.2 idx - pressure_correction * s_down))
         (idx + WIDTH) (st.2.2 (idx + WIDTH) + pressure_correction * s_up))

/-- One Gauss-Seidel relaxation sweep over the interior cells in row-major
order (main.rs lines 260-285). -/
def projectSweep (s : Grid) (ct : Nat → CellType) (st : Grid × Grid × Grid) :
    Grid × Grid × Grid :=
  (List.range' 1 (HEIGHT - 2)).foldl
    (fun st j =>
      (List.range' 1 (WIDTH - 2)).foldl
        (fun st i => projectCell s ct st (j * WIDTH + i)) st)
    st

/-- Incompressibility projection (main.rs lines 252-287): pressure reset to
zero, then a fixed number of relaxation sweeps. -/
def applyIncompressibilityToGrid (g : FluidSim) : FluidSim :=
  let st := (projectSweep g.s g.cell_types)^[ INCOMPRESSIBILITY_ITERATIONS]
    (fun _ => 0, g.u, g.v)
  { g with p := st.1, u := st.2.1, v := st.2.2 }

/-- Bilinear gather of a grid field at one staggered cell: the weighted sum
of the four surrounding nodes (shape of main.rs lines 314-321). -/
def bilerp (f : Grid) (c : StagIdx) : ℚ :=
  f (bottom_left_idx c) * bottom_left_w c + f (bottom_right_idx c) * bottom_right_w c
    + f (top_left_idx c) * top_left_w c + f (top_right_idx c) * top_right_w c

/-- The grid-to-particle update of one particle (main.rs lines 293-357).
As in the source, the u-component guard skips the whole particle, and the
v-component guard also skips the whole particle (both velocity assignments
happen only after both guards pass). -/
def g2pParticle (u prev_u v prev_v : Grid) (p : Particle) : Particle :=
  let cu := u_stag p
  if cu.oob then p
  else
    let du :=
      (u (bottom_left_idx cu) - prev_u (bottom_left_idx cu)) * bottom_left_w cu
        + (u (bottom_right_idx cu) - prev_u (bottom_right_idx cu)) * bottom_right_w cu
        + (u (top_left_idx cu) - prev_u (top_left_idx cu)) * top_left_w cu
        + (u (top_right_idx cu) - prev_u (top_right_idx cu)) * top_right_w cu
    let pic_vx :=
      u (bottom_left_idx cu) * bottom_left_w cu
        + u (bottom_right_idx cu) * bottom_right_w cu
        + u (top_left_idx cu) * top_left_w cu
        + u (top_right_idx cu) * top_right_w cu
    let cv := v_stag p
    if cv.oob then p
    else
      let dv :=
        (v (bottom_left_idx cv) - prev_v (bottom_left_idx cv)) * bottom_left_w cv
          + (v (bottom_right_idx cv) - prev_v (bottom_right_idx cv)) * bottom_right_w cv
          + (v (top_left_idx cv) - prev_v (top_left_idx cv)) * top_left_w cv
          + (v (top_right_idx cv) - prev_v (top_right_idx cv)) * top_right_w cv
      let pic_vy :=
        v (bottom_left_idx cv) * bottom_left_w cv
          + v (bottom_right_idx cv) * bottom_right_w cv
          + v (top_left_idx cv) * top_left_w cv
          + v (top_right_idx cv) * top_right_w cv
      let flip_vx := p.vx + du
      let flip_vy := p.vy + dv
      { p with
        vx := (1 - FLIP_RATIO) * pic_vx + FLIP_RATIO * flip_vx,
        vy := (1 - FLIP_RATIO) * pic_vy + FLIP_RATIO * flip_vy }

/-- Grid-to-particle transfer (main.rs lines 289-358). -/
def applyGridVelocitiesToParticles (g : FluidSim) : FluidSim :=
  { g with particles := g.particles.map (g2pParticle g.u g.prev_u g.v g.prev_v) }

/-- External force integration (main.rs lines 132-144). -/
def integrateExternalForces (accel_x accel_y : ℤ) (g : FluidSim) : FluidSim :=
  let fx : ℚ := (accel_x : ℚ) / (-1024)
  let fy : ℚ := (accel_y : ℚ) / (-1024)
  { g with
    particles := g.particles.map fun p =>
      { p with vx := (p.vx + fx * DT) * DAMPING, vy := (p.vy + fy * DT) * DAMPING } }

/-- Explicit Euler advection of one particle (main.rs lines 364-367). -/
def advectParticle (p : Particle) : Particle :=
  { p with x := p.x + p.vx * DT, y := p.y + p.vy * DT }

/-- min_dist, main.rs line 373. -/
def min_dist : ℚ := 2 * PARTICLE_RADIUS

/-- min_dist_sq, main.rs line 374. -/
def min_dist_sq : ℚ := min_dist * min_dist

/-- One pair interaction of the particle decollision pass (main.rs lines
379-397).  `sq` is the square-root oracle standing for `f32::sqrt`. -/
def collidePair (sq : ℚ → ℚ) (ps : List Particle) (i j : Nat) : List Particle :=
  let p1 := ps.getD i default
  let p2 := ps.getD j default
  let dx := p2.x - p1.x
  let dy := p2.y - p1.y
  let dist_sq := dx * dx + dy * dy
  if 1/1000000 < dist_sq ∧ dist_sq < min_dist_sq then
    let dist := sq dist_sq
    let s := 1/2 * (min_dist - dist) / dist
    let push_x := dx * s
    let push_y := dy * s
    (ps.set i { p1 with x := p1.x - push_x, y := p1.y - push_y }).set j
      { p2 with x := p2.x + push_x, y := p2.y + push_y }
  else ps

/-- The unordered pairs (i, j) with i < j < n, in the order the nested loops
of main.rs lines 377-378 visit them. -/
def pairList (n : Nat) : List (Nat × Nat) :=
  (List.range n).flatMap fun i => (List.range' (i + 1) (n - (i + 1))).map fun j => (i, j)

/-- One iteration of the decollision pass over every unordered pair. -/
def collideSweep (sq : ℚ → ℚ) (ps : List Particle) : List Particle :=
  (pairList ps.length).foldl (fun ps ij => collidePair sq ps ij.1 ij.2) ps

/-- Particle-particle collision resolution (main.rs lines 372-401). -/
def resolveParticleCollisions (sq : ℚ → ℚ) (ps : List Particle) : List Particle :=
  (collideSweep sq)^[ COLLISION_ITERS] ps

/-- Lower clamp bound, main.rs line 404. -/
def min_coord : ℚ := 1 + PARTICLE_RADIUS

/-- Upper x clamp bound, main.rs line 405. -/
def max_x : ℚ := ((WIDTH : ℚ) - 1) - PARTICLE_RADIUS

/-- Upper y clamp bound, main.rs line 406. -/
def max_y : ℚ := ((HEIGHT : ℚ) - 1) - PARTICLE_RADIUS

/-- Boundary clamping of one particle (main.rs lines 408-413). -/
def clampParticle (p : Particle) : Particle :=
  let p1 := if p.x < min_coord then { p with x := min_coord, vx := 0 } else p
  let p2 := if p1.x > max_x then { p1 with x := max_x, vx := 0 } else p1
  let p3 := if p2.y < min_coord then { p2 with y := min_coord, vy := 0 } else p2
  if p3.y > max_y then { p3 with y := max_y, vy := 0 } else p3

/-- Boundary collision resolution (main.rs lines 403-414). -/
def resolveBoundaryCollisions (g : FluidSim) : FluidSim :=
  { g with particles := g.particles.map clampParticle }

/-- Advection plus both collision passes (main.rs lines 360-370). -/
def advectAndCollideParticles (sq : ℚ → ℚ) (g : FluidSim) : FluidSim :=
  resolveBoundaryCollisions
    { g with particles := resolveParticleCollisions sq (g.particles.map advectParticle) }

/-- The per-particle body of the display-density loop (main.rs lines 418-426). -/
def displayStep (d : Grid) (p : Particle) : Grid :=
  let cell_x := floorToUsize p.x
  let cell_y := floorToUsize p.y
  if cell_x < WIDTH ∧ cell_y < HEIGHT then
    upd d (cell_y * WIDTH + cell_x) 1
  else d

/-- Display density update (main.rs lines 416-427). -/
def updateDisplayGrid (g : FluidSim) : FluidSim :=
  { g with display_density := g.particles.foldl displayStep (fun _ => 0) }

/-- The per-frame pipeline (main.rs lines 112-130), parameterized by the
square-root oracle used in the particle decollision pass. -/
def FluidSim.step (sq : ℚ → ℚ) (accel_x accel_y : ℤ) (g : FluidSim) : FluidSim :=
  updateDisplayGrid
    (advectAndCollideParticles sq
      (applyGridVelocitiesToParticles
        (applyIncompressibilityToGrid
          (applyParticlesToGrid
            (integrateExternalForces accel_x accel_y g)))))

/-- The initial simulation state (main.rs lines 76-110). -/
def FluidSim.new : FluidSim :=
  { particles :=
      (List.range NUM_PARTICLES).map fun i =>
        { x := ((i % 5 : Nat) : ℚ) + 3/2, y := ((i / 5 : Nat) : ℚ) + 3/2, vx := 0, vy := 0 }
    u := fun _ => 0
    v := fun _ => 0
    prev_u := fun _ => 0
    prev_v := fun _ => 0
    p := fun _ => 0
    s := fun idx =>
      if idx % WIDTH = 0 ∨ idx % WIDTH = WIDTH - 1 ∨ idx / WIDTH = 0 ∨ idx / WIDTH = HEIGHT - 1
      then 0 else 1
    cell_types := fun _ => CellType.Air
    display_density := fun _ => 0 }

/-! ## Generic helper lemmas -/

theorem upd_self (f : Grid) (i : Nat) (a : ℚ) : upd f i a i = a := by
  simp [upd]

theorem upd_ne (f : Grid) (i : Nat) (a : ℚ) {j : Nat} (h : j ≠ i) : upd f i a j = f j := by
  simp [upd, h]

theorem foldl_inv {α β : Type _} {P : α → Prop} {f : α → β → α}
    (h : ∀ a b, P a → P (f a b)) :
    ∀ (l : List β) (a : α), P a → P (l.foldl f a) := by
  intro l
  induction l with
  | nil => exact fun a ha => ha
  | cons b t ih => exact fun a ha => ih _ (h a b ha)

theorem iterate_inv {α : Type _} {P : α → Prop} {f : α → α}
    (h : ∀ a, P a → P (f a)) :
    ∀ (n : Nat) (a : α), P a → P (f^[n] a) := by
  intro n
  induction n with
  | zero => exact fun a ha => ha
  | succ m ih =>
    intro a ha
    rw [Function.iterate_succ_apply]
    exact ih _ (h a ha)

/-! ## Claim C1: boundary containment and inelastic wall collisions -/

theorem min_coord_le_max_x : min_coord ≤ max_x := by
  norm_num [min_coord, max_x, PARTICLE_RADIUS]

theorem min_coord_le_max_y : min_coord ≤ max_y := by
  norm_num [min_coord, max_y, PARTICLE_RADIUS]

theorem clampParticle_x_bounds (p : Particle) :
    min_coord ≤ (clampParticle p).x ∧ (clampParticle p).x ≤ max_x := by
  have hmx := min_coord_le_max_x
  simp only [clampParticle, apply_ite Particle.x]
  split_ifs <;> constructor <;> first | rfl | linarith

theorem clampParticle_y_bounds (p : Particle) :
    min_coord ≤ (clampParticle p).y ∧ (clampParticle p).y ≤ max_y := by
  have hmy := min_coord_le_max_y
  simp only [clampParticle, apply_ite Particle.y]
  split_ifs <;> constructor <;> first | rfl | linarith

theorem clampParticle_vx_zero (p : Particle) :
    (clampParticle p).x ≠ p.x → (clampParticle p).vx = 0 := by
  have hmx := min_coord_le_max_x
  simp only [clampParticle, apply_ite Particle.x, apply_ite Particle.vx]
  split_ifs <;> intro h <;> first | rfl | exact absurd rfl h

theorem clampParticle_vy_zero (p : Particle) :
    (clampParticle p).y ≠ p.y → (clampParticle p).vy = 0 := by
  have hmy := min_coord_le_max_y
  simp only [clampParticle, apply_ite Particle.y, apply_ite Particle.vy]
  split_ifs <;> intro h <;> first | rfl | exact absurd rfl h

theorem updateDisplayGrid_particles (g : FluidSim) :
    (updateDisplayGrid g).particles = g.particles := rfl

theorem advectAndCollideParticles_particles (sq : ℚ → ℚ) (g : FluidSim) :
    (advectAndCollideParticles sq g).particles =
      List.map clampParticle
        (resolveParticleCollisions sq (g.particles.map advectParticle)) := by
  simp only [advectAndCollideParticles, resolveBoundaryCollisions]

/-- Claim C1: after every call to the per-frame pipeline step (whose last
position-mutating stage is the boundary clamp of
resolve_boundary_collisions), every particle's position lies in
[1 + PARTICLE_RADIUS, (WIDTH-1) - PARTICLE_RADIUS] on x and
[1 + PARTICLE_RADIUS, (HEIGHT-1) - PARTICLE_RADIUS] on y, and a particle
the clamp moved on an axis has that axis's velocity set to exactly 0. -/
theorem c1_boundary_containment (sq : ℚ → ℚ) (accel_x accel_y : ℤ) (g : FluidSim) :
    (∀ p ∈ (FluidSim.step sq accel_x accel_y g).particles,
      1 + PARTICLE_RADIUS ≤ p.x ∧ p.x ≤ ((WIDTH : ℚ) - 1) - PARTICLE_RADIUS ∧
      1 + PARTICLE_RADIUS ≤ p.y ∧ p.y ≤ ((HEIGHT : ℚ) - 1) - PARTICLE_RADIUS) ∧
    (∀ q : Particle,
      ((clampParticle q).x ≠ q.x → (clampParticle q).vx = 0) ∧
      ((clampParticle q).y ≠ q.y → (clampParticle q).vy = 0)) := by
  constructor
  · intro p hp
    rw [FluidSim.step, updateDisplayGrid_particles,
      advectAndCollideParticles_particles, List.mem_map] at hp
    rcases hp with ⟨q, _, rfl⟩
    have hx := clampParticle_x_bounds q
    have hy := clampParticle_y_bounds q
    simp only [min_coord, max_x, max_y] at hx hy
    exact ⟨hx.1, hx.2, hy.1, hy.2⟩
  · exact fun q => ⟨clampParticle_vx_zero q, clampParticle_vy_zero q⟩

/-- Square-root oracle used by concrete witness states (the boundary claims
hold for every oracle). -/
def sqZero : ℚ → ℚ := fun _ => 0

/-- A small concrete state used by witnesses: one particle, the bordered
solid mask of the source's constructor. -/
def gWitness : FluidSim :=
  { particles := [{ x := 3/2, y := 3/2, vx := 0, vy := 1 }]
    u := fun _ => 0
    v := fun _ => 0
    prev_u := fun _ => 0
    prev_v := fun _ => 0
    p := fun _ => 0
    s := fun idx =>
      if idx % WIDTH = 0 ∨ idx % WIDTH = WIDTH - 1 ∨ idx / WIDTH = 0 ∨ idx / WIDTH = HEIGHT - 1
      then 0 else 1
    cell_types := fun _ => CellType.Air
    display_density := fun _ => 0 }

/-- The particle produced by one full pipeline step on the witness state. -/
def pStep : Particle := ((FluidSim.step sqZero 0 0 gWitness).particles).headI

/-- A particle outside the bounds, used to exercise the clamping branch. -/
def pOut : Particle := { x := 0, y := 0, vx := 5, vy := 5 }

theorem headI_mem_of_ne_nil {α : Type _} [Inhabited α] {l : List α} (h : l ≠ []) :
    l.headI ∈ l := by
  cases l with
  | nil => exact absurd rfl h
  | cons a t => exact List.mem_cons_self a t

set_option maxRecDepth 10000 in
theorem c1_boundary_containment_witness :
    pStep ∈ (FluidSim.step sqZero 0 0 gWitness).particles ∧
    (1 + PARTICLE_RADIUS ≤ pStep.x ∧ pStep.x ≤ ((WIDTH : ℚ) - 1) - PARTICLE_RADIUS ∧
      1 + PARTICLE_RADIUS ≤ pStep.y ∧ pStep.y ≤ ((HEIGHT : ℚ) - 1) - PARTICLE_RADIUS) ∧
    (clampParticle pOut).x ≠ pOut.x ∧ (clampParticle pOut).vx = 0 := by
  have h := c1_boundary_containment sqZero 0 0 gWitness
  have hnil : (FluidSim.step sqZero 0 0 gWitness).particles ≠ [] := by
    with_unfolding_all decide
  have hmem : pStep ∈ (FluidSim.step sqZero 0 0 gWitness).particles :=
    headI_mem_of_ne_nil hnil
  have hne : (clampParticle pOut).x ≠ pOut.x := by with_unfolding_all decide
  exact ⟨hmem, h.1 pStep hmem, hne, (h.2 pOut).1 hne⟩

/-! ## Claim C2: the relaxation sweep's per-cell update -/

/-- Claim C2, part 1 helper: the projection's result does not depend on the
incoming pressure field (it is reset before the sweeps, which never read it). -/
theorem applyIncompressibility_p_independent (g : FluidSim) (q0 : Grid) :
    applyIncompressibilityToGrid { g with p := q0 } = applyIncompressibilityToGrid g := rfl

/-- Claim C2: in apply_incompressibility_to_grid the pressure field is reset
to zero before the sweeps (the result is independent of the incoming
pressure), and the relaxation body at an interior Fluid cell (i, j) with
nonzero s_sum adds correction = (-divergence / s_sum) * OVER_RELAXATION to
the cell's pressure and redistributes it into the four adjacent velocity
samples weighted by the neighbor open-indicators, where
divergence = (u at (i+1,j) minus u at (i,j)) + (v at (i,j+1) minus v at (i,j));
a Fluid cell with s_sum = 0 is skipped. -/
theorem c2_relaxation_update (g : FluidSim) (q0 : Grid) (st : Grid × Grid × Grid)
    (i j : Nat) (hi1 : 1 ≤ i) (hi2 : i < WIDTH - 1) (hj1 : 1 ≤ j) (hj2 : j < HEIGHT - 1)
    (hct : g.cell_types (j * WIDTH + i) = CellType.Fluid) :
    applyIncompressibilityToGrid { g with p := q0 } = applyIncompressibilityToGrid g ∧
    (g.s (j * WIDTH + (i - 1)) + g.s (j * WIDTH + (i + 1)) + g.s ((j - 1) * WIDTH + i)
        + g.s ((j + 1) * WIDTH + i) = 0 →
      projectCell g.s g.cell_types st (j * WIDTH + i) = st) ∧
    (g.s (j * WIDTH + (i - 1)) + g.s (j * WIDTH + (i + 1)) + g.s ((j - 1) * WIDTH + i)
        + g.s ((j + 1) * WIDTH + i) ≠ 0 →
      ((projectCell g.s g.cell_types st (j * WIDTH + i)).1 (j * WIDTH + i) =
          st.1 (j * WIDTH + i) +
            -((st.2.1 (j * WIDTH + (i + 1)) - st.2.1 (j * WIDTH + i)) +
                (st.2.2 ((j + 1) * WIDTH + i) - st.2.2 (j * WIDTH + i))) /
                (g.s (j * WIDTH + (i - 1)) + g.s (j * WIDTH + (i + 1)) +
                  g.s ((j - 1) * WIDTH + i) + g.s ((j + 1) * WIDTH + i)) *
                OVER_RELAXATION ∧
        (projectCell g.s g.cell_types st (j * WIDTH + i)).2.1 (j * WIDTH + i) =
          st.2.1 (j * WIDTH + i) -
            -((st.2.1 (j * WIDTH + (i + 1)) - st.2.1 (j * WIDTH + i)) +
                (st.2.2 ((j + 1) * WIDTH + i) - st.2.2 (j * WIDTH + i))) /
                (g.s (j * WIDTH + (i - 1)) + g.s (j * WIDTH + (i + 1)) +
                  g.s ((j - 1) * WIDTH + i) + g.s ((j + 1) * WIDTH + i)) *
                OVER_RELAXATION * g.s (j * WIDTH + (i - 1)) ∧
        (projectCell g.s g.cell_types st (j * WIDTH + i)).2.1 (j * WIDTH + (i + 1)) =
          st.2.1 (j * WIDTH + (i + 1)) +
            -((st.2.1 (j * WIDTH + (i + 1)) - st.2.1 (j * WIDTH + i)) +
                (st.2.2 ((j + 1) * WIDTH + i) - st.2.2 (j * WIDTH + i))) /
                (g.s (j * WIDTH + (i - 1)) + g.s (j * WIDTH + (i + 1)) +
                  g.s ((j - 1) * WIDTH + i) + g.s ((j + 1) * WIDTH + i)) *
                OVER_RELAXATION * g.s (j * WIDTH + (i + 1)) ∧
        (projectCell g.s g.cell_types st (j * WIDTH + i)).2.2 (j * WIDTH + i) =
          st.2.2 (j * WIDTH + i) -
            -((st.2.1 (j * WIDTH + (i + 1)) - st.2.1 (j * WIDTH + i)) +
                (st.2.2 ((j + 1) * WIDTH + i) - st.2.2 (j * WIDTH + i))) /
                (g.s (j * WIDTH + (i - 1)) + g.s (j * WIDTH + (i + 1)) +
                  g.s ((j - 1) * WIDTH + i) + g.s ((j + 1) * WIDTH + i)) *
                OVER_RELAXATION * g.s ((j - 1) * WIDTH + i) ∧
        (projectCell g.s g.cell_types st (j * WIDTH + i)).2.2 ((j + 1) * WIDTH + i) =
          st.2.2 ((j + 1) * WIDTH + i) +
            -((st.2.1 (j * WIDTH + (i + 1)) - st.2.1 (j * WIDTH + i)) +
                (st.2.2 ((j + 1) * WIDTH + i) - st.2.2 (j * WIDTH + i))) /
                (g.s (j * WIDTH + (i - 1)) + g.s (j * WIDTH + (i + 1)) +
                  g.s ((j - 1) * WIDTH + i) + g.s ((j + 1) * WIDTH + i)) *
                OVER_RELAXATION * g.s ((j + 1) * WIDTH + i))) := by
  have hW : WIDTH = 7 := rfl
  have hH : HEIGHT = 7 := rfl
  have e1 : j * WIDTH + i - 1 = j * WIDTH + (i - 1) := by omega
  have e2 : j * WIDTH + i + 1 = j * WIDTH + (i + 1) := by omega
  have e3 : j * WIDTH + i - WIDTH = (j - 1) * WIDTH + i := by
    rw [hW] at *; omega
  have e4 : j * WIDTH + i + WIDTH = (j + 1) * WIDTH + i := by
    rw [hW] at *; omega
  refine ⟨rfl, ?_, ?_⟩
  · intro hsum
    simp only [projectCell, hct, e1, e2, e3, e4]
    simp [hsum]
  · intro hsum
    have hne1 : j * WIDTH + i ≠ j * WIDTH + (i + 1) := by omega
    have hne2 : j * WIDTH + i ≠ (j + 1) * WIDTH + i := by rw [hW] at *; omega
    simp only [projectCell, hct, e1, e2, e3, e4]
    simp only [ne_eq, not_true_eq_false, if_false, hsum, if_neg hsum, ite_false]
    refine ⟨?_, ?_, ?_, ?_, ?_⟩ <;>
      simp only [upd_self, upd_ne _ _ _ hne1, upd_ne _ _ _ hne2,
        upd_ne _ _ _ hne1.symm, upd_ne _ _ _ hne2.symm] <;> ring

/-- The border solid mask of the source's constructor, as a standalone grid. -/
def sBorder : Grid := fun idx =>
  if idx % WIDTH = 0 ∨ idx % WIDTH = WIDTH - 1 ∨ idx / WIDTH = 0 ∨ idx / WIDTH = HEIGHT - 1
  then 0 else 1

/-- A projection test state: one Fluid cell at (1, 1) (index 8), an Air cell
to its right at index 9 carrying a nonzero u sample, no particles. -/
def gProj : FluidSim :=
  { particles := []
    u := fun idx => if idx = 9 then 1 else 0
    v := fun _ => 0
    prev_u := fun _ => 0
    prev_v := fun _ => 0
    p := fun _ => 0
    s := sBorder
    cell_types := updCT (classifyBase sBorder) 8 CellType.Fluid
    display_density := fun _ => 0 }

/-- The projection state triple (pressure, u, v) of gProj. -/
def stProj : Grid × Grid × Grid := (gProj.p, gProj.u, gProj.v)

theorem c2_relaxation_update_witness :
    gProj.cell_types (1 * WIDTH + 1) = CellType.Fluid ∧
    gProj.s (1 * WIDTH + (1 - 1)) + gProj.s (1 * WIDTH + (1 + 1)) +
        gProj.s ((1 - 1) * WIDTH + 1) + gProj.s ((1 + 1) * WIDTH + 1) ≠ 0 ∧
    (projectCell gProj.s gProj.cell_types stProj (1 * WIDTH + 1)).1 (1 * WIDTH + 1) =
      stProj.1 (1 * WIDTH + 1) +
        -((stProj.2.1 (1 * WIDTH + (1 + 1)) - stProj.2.1 (1 * WIDTH + 1)) +
            (stProj.2.2 ((1 + 1) * WIDTH + 1) - stProj.2.2 (1 * WIDTH + 1))) /
          (gProj.s (1 * WIDTH + (1 - 1)) + gProj.s (1 * WIDTH + (1 + 1)) +
            gProj.s ((1 - 1) * WIDTH + 1) + gProj.s ((1 + 1) * WIDTH + 1)) *
          OVER_RELAXATION := by
  have hct : gProj.cell_types (1 * WIDTH + 1) = CellType.Fluid := by
    with_unfolding_all decide
  have hsum : gProj.s (1 * WIDTH + (1 - 1)) + gProj.s (1 * WIDTH + (1 + 1)) +
      gProj.s ((1 - 1) * WIDTH + 1) + gProj.s ((1 + 1) * WIDTH + 1) ≠ 0 := by
    with_unfolding_all decide
  exact ⟨hct, hsum,
    ((c2_relaxation_update gProj (fun _ => 5) stProj 1 1 (by decide) (by decide)
      (by decide) (by decide) hct).2.2 hsum).1⟩

/-! ## Claim C5: the PIC/FLIP blend of the grid-to-particle transfer -/

/-- Claim C5: for a particle whose staggered sampling cells are in bounds,
the grid-to-particle update sets each axis's velocity to
(1 - FLIP_RATIO) * PIC + FLIP_RATIO * (prior velocity + interpolated grid
delta), where PIC is the bilinear interpolation of the current grid
velocity; a particle whose staggered sampling cell is out of bounds is
skipped with its velocity unchanged that frame. -/
theorem c5_g2p_blend (u pu v pv : Grid) (p : Particle) :
    (¬ (u_stag p).oob → ¬ (v_stag p).oob →
      g2pParticle u pu v pv p =
        { p with
          vx := (1 - FLIP_RATIO) * bilerp u (u_stag p) +
            FLIP_RATIO * (p.vx + (bilerp u (u_stag p) - bilerp pu (u_stag p))),
          vy := (1 - FLIP_RATIO) * bilerp v (v_stag p) +
            FLIP_RATIO * (p.vy + (bilerp v (v_stag p) - bilerp pv (v_stag p))) }) ∧
    ((u_stag p).oob ∨ (v_stag p).oob → g2pParticle u pu v pv p = p) := by
  constructor
  · intro h1 h2
    simp only [g2pParticle, h1, h2, if_false, ite_false]
    refine congrArg₂ (fun a b => { p with vx := a, vy := b }) ?_ ?_ <;>
      simp only [bilerp] <;> ring
  · intro h
    by_cases h1 : (u_stag p).oob
    · simp only [g2pParticle, h1, if_true, ite_true]
    · have h2 : (v_stag p).oob := h.resolve_left h1
      simp only [g2pParticle, h1, h2, if_true, ite_true, if_false, ite_false]

/-- A concrete grid making the C5 witness value nontrivial. -/
def uRamp : Grid := fun i => (i : ℚ) / 4

/-- A concrete in-bounds particle for the C5 witness. -/
def pIn : Particle := { x := 5/2, y := 7/2, vx := 1, vy := 2 }

theorem c5_g2p_blend_witness :
    ¬ (u_stag pIn).oob ∧ ¬ (v_stag pIn).oob ∧
    g2pParticle uRamp (fun _ => 0) uRamp (fun _ => 0) pIn =
      { pIn with
        vx := (1 - FLIP_RATIO) * bilerp uRamp (u_stag pIn) +
          FLIP_RATIO * (pIn.vx + (bilerp uRamp (u_stag pIn) - bilerp (fun _ => 0) (u_stag pIn))),
        vy := (1 - FLIP_RATIO) * bilerp uRamp (v_stag pIn) +
          FLIP_RATIO * (pIn.vy + (bilerp uRamp (v_stag pIn) - bilerp (fun _ => 0) (v_stag pIn))) } := by
  have h1 : ¬ (u_stag pIn).oob := by with_unfolding_all decide
  have h2 : ¬ (v_stag pIn).oob := by with_unfolding_all decide
  exact ⟨h1, h2, (c5_g2p_blend uRamp (fun _ => 0) uRamp (fun _ => 0) pIn).1 h1 h2⟩

/-! ## Claim C7: one pair update of the decollision pass -/

theorem getD_set_self {l : List Particle} {i : Nat} (a : Particle)
    (h : i < l.length) : (l.set i a).getD i default = a := by
  rw [List.getD_eq_getElem?_getD, List.getElem?_set_self (by simpa using h)]
  rfl

theorem getD_set_ne {l : List Particle} {i j : Nat} (a : Particle)
    (h : i ≠ j) : (l.set i a).getD j default = l.getD j default := by
  rw [List.getD_eq_getElem?_getD, List.getElem?_set_ne h, List.getD_eq_getElem?_getD]

/-- Claim C7: for a pair whose squared distance d2 lies strictly between
1e-6 and (2 * PARTICLE_RADIUS)^2, one pair update displaces the two
particles by equal and opposite amounts along the connecting line and, when
the oracle returns the exact square root of d2, leaves their squared
separation exactly (2 * PARTICLE_RADIUS)^2; a pair with d2 at most 1e-6 is
left unmoved. -/
theorem c7_pair_update (sq : ℚ → ℚ) (ps : List Particle) (i j : Nat)
    (hij : i < j) (hj : j < ps.length) :
    (1/1000000 <
        ((ps.getD j default).x - (ps.getD i default).x) *
            ((ps.getD j default).x - (ps.getD i default).x) +
          ((ps.getD j default).y - (ps.getD i default).y) *
            ((ps.getD j default).y - (ps.getD i default).y) →
      ((ps.getD j default).x - (ps.getD i default).x) *
            ((ps.getD j default).x - (ps.getD i default).x) +
          ((ps.getD j default).y - (ps.getD i default).y) *
            ((ps.getD j default).y - (ps.getD i default).y) < min_dist_sq →
      sq (((ps.getD j default).x - (ps.getD i default).x) *
            ((ps.getD j default).x - (ps.getD i default).x) +
          ((ps.getD j default).y - (ps.getD i default).y) *
            ((ps.getD j default).y - (ps.getD i default).y)) *
        sq (((ps.getD j default).x - (ps.getD i default).x) *
            ((ps.getD j default).x - (ps.getD i default).x) +
          ((ps.getD j default).y - (ps.getD i default).y) *
            ((ps.getD j default).y - (ps.getD i default).y)) =
        ((ps.getD j default).x - (ps.getD i default).x) *
            ((ps.getD j default).x - (ps.getD i default).x) +
          ((ps.getD j default).y - (ps.getD i default).y) *
            ((ps.getD j default).y - (ps.getD i default).y) →
      (((collidePair sq ps i j).getD i default).x - (ps.getD i default).x =
          -(((collidePair sq ps i j).getD j default).x - (ps.getD j default).x) ∧
        ((collidePair sq ps i j).getD i default).y - (ps.getD i default).y =
          -(((collidePair sq ps i j).getD j default).y - (ps.getD j default).y)) ∧
      (((collidePair sq ps i j).getD j default).x - (ps.getD j default).x) *
          ((ps.getD j default).y - (ps.getD i default).y) =
        (((collidePair sq ps i j).getD j default).y - (ps.getD j default).y) *
          ((ps.getD j default).x - (ps.getD i default).x) ∧
      (((collidePair sq ps i j).getD j default).x -
            ((collidePair sq ps i j).getD i default).x) ^ 2 +
          (((collidePair sq ps i j).getD j default).y -
            ((collidePair sq ps i j).getD i default).y) ^ 2 =
        (2 * PARTICLE_RADIUS) ^ 2) ∧
    (((ps.getD j default).x - (ps.getD i default).x) *
          ((ps.getD j default).x - (ps.getD i default).x) +
        ((ps.getD j default).y - (ps.getD i default).y) *
          ((ps.getD j default).y - (ps.getD i default).y) ≤ 1/1000000 →
      collidePair sq ps i j = ps) := by
  have hi : i < ps.length := lt_trans hij hj
  have hij' : i ≠ j := Nat.ne_of_lt hij
  constructor
  · intro hlo hhi hsq
    have hcond : 1/1000000 <
        ((ps.getD j default).x - (ps.getD i default).x) *
            ((ps.getD j default).x - (ps.getD i default).x) +
          ((ps.getD j default).y - (ps.getD i default).y) *
            ((ps.getD j default).y - (ps.getD i default).y) ∧
        ((ps.getD j default).x - (ps.getD i default).x) *
            ((ps.getD j default).x - (ps.getD i default).x) +
          ((ps.getD j default).y - (ps.getD i default).y) *
            ((ps.getD j default).y - (ps.getD i default).y) < min_dist_sq :=
      ⟨hlo, hhi⟩
    simp only [collidePair, if_pos hcond]
    rw [getD_set_ne _ hij'.symm, getD_set_self _ hi,
      getD_set_self _ (by simpa using hj)]
    dsimp only
    set p1 := ps.getD i default with hp1
    set p2 := ps.getD j default with hp2
    set dx := p2.x - p1.x with hdx
    set dy := p2.y - p1.y with hdy
    set d2 := dx * dx + dy * dy with hd2
    set dist := sq d2 with hdist
    have hd2_pos : 0 < d2 := lt_trans (by norm_num) hlo
    have hdist_ne : dist ≠ 0 := by
      intro h0
      rw [h0, mul_zero] at hsq
      rw [← hsq] at hd2_pos
      exact lt_irrefl 0 hd2_pos
    have hs : dist * dist = d2 := hsq
    refine ⟨⟨by ring, by ring⟩, by ring, ?_⟩
    have h1s : ∀ A : ℚ,
        A + A * (1/2 * (min_dist - dist) / dist) - (-(A * (1/2 * (min_dist - dist) / dist))) =
          A * min_dist / dist := by
      intro A
      field_simp
      ring
    have hgoal : (dx + 2 * (dx * (1/2 * (min_dist - dist) / dist))) ^ 2 +
        (dy + 2 * (dy * (1/2 * (min_dist - dist) / dist))) ^ 2 =
        (2 * PARTICLE_RADIUS) ^ 2 := by
      have hexp : ∀ A : ℚ, A + 2 * (A * (1/2 * (min_dist - dist) / dist)) = A * min_dist / dist := by
        intro A
        field_simp
        ring
      rw [hexp dx, hexp dy]
      have : (dx * min_dist / dist) ^ 2 + (dy * min_dist / dist) ^ 2 =
          d2 * min_dist ^ 2 / (dist * dist) := by
        rw [hd2]
        field_simp
        ring
      rw [this, hs, mul_div_cancel_left₀ _ (ne_of_gt hd2_pos)]
      norm_num [min_dist, PARTICLE_RADIUS]
    calc (p2.x + dx * (1/2 * (min_dist - dist) / dist) -
            (p1.x - dx * (1/2 * (min_dist - dist) / dist))) ^ 2 +
          (p2.y + dy * (1/2 * (min_dist - dist) / dist) -
            (p1.y - dy * (1/2 * (min_dist - dist) / dist))) ^ 2
        = (dx + 2 * (dx * (1/2 * (min_dist - dist) / dist))) ^ 2 +
          (dy + 2 * (dy * (1/2 * (min_dist - dist) / dist))) ^ 2 := by
          rw [hdx, hdy]; ring
      _ = (2 * PARTICLE_RADIUS) ^ 2 := hgoal
  · intro hle
    simp only [collidePair]
    rw [if_neg]
    intro hc
    exact absurd hc.1 (not_lt_of_le hle)

/-- A concrete overlapping pair: distance 3/10, below min_dist = 2/5. -/
def psPair : List Particle :=
  [{ x := 0, y := 0, vx := 0, vy := 0 }, { x := 3/10, y := 0, vx := 0, vy := 0 }]

/-- Exact square-root oracle for the single squared distance 9/100. -/
def sqPair : ℚ → ℚ := fun _ => 3/10

theorem c7_pair_update_witness :
    (1/1000000 < (9 : ℚ)/100 ∧ (9 : ℚ)/100 < min_dist_sq ∧ sqPair (9/100) * sqPair (9/100) = 9/100) ∧
    (((collidePair sqPair psPair 0 1).getD 1 default).x -
        ((collidePair sqPair psPair 0 1).getD 0 default).x) ^ 2 +
      (((collidePair sqPair psPair 0 1).getD 1 default).y -
        ((collidePair sqPair psPair 0 1).getD 0 default).y) ^ 2 =
      (2 * PARTICLE_RADIUS) ^ 2 := by
  refine ⟨⟨by norm_num, by with_unfolding_all decide, by with_unfolding_all decide⟩, ?_⟩
  exact ((c7_pair_update sqPair psPair 0 1 (by decide) (by decide)).1
    (by with_unfolding_all decide) (by with_unfolding_all decide)
    (by with_unfolding_all decide)).2.2

/-! ## Claim C10: the far-border-only guard and the saturating cast -/

/-- Claim C10: the out-of-bounds guard of the scatter loops and the gather
only checks the far border.  For a particle with y in [-1/2, 1/2) the
floored staggered row index of the horizontal-velocity sub-grid is -1
(negative); the f32-to-usize conversion saturates it to 0, the guard does
not skip the particle (given the x far-bound check passes), and the scatter
contributes to row 0 using bilinear weights computed from the un-saturated
fractional offset dy = y + 1/2.  Symmetrically for x in [-1/2, 1/2) on the
vertical-velocity sub-grid.  Because `StagIdx.oob` is exactly the guard of
both the P2G scatter (`scatterStep`) and the G2P gather (`g2pParticle`),
the not-skipped conclusion covers both. -/
theorem c10_saturating_cast (p : Particle) (uw : Grid × Grid) :
    (-(1/2) ≤ p.y → p.y < 1/2 → (u_stag p).cx + 1 < WIDTH →
      Int.floor (p.y - 1/2) = -1 ∧
      (u_stag p).cy = 0 ∧
      ¬ (u_stag p).oob ∧
      (u_stag p).dy = p.y + 1/2 ∧
      (scatterStep (u_stag p) p.vx uw).1 (bottom_left_idx (u_stag p)) =
        uw.1 (bottom_left_idx (u_stag p)) + p.vx * bottom_left_w (u_stag p) ∧
      (scatterStep (u_stag p) p.vx uw).2 (bottom_left_idx (u_stag p)) =
        uw.2 (bottom_left_idx (u_stag p)) + bottom_left_w (u_stag p)) ∧
    (-(1/2) ≤ p.x → p.x < 1/2 → (v_stag p).cy + 1 < HEIGHT →
      Int.floor (p.x - 1/2) = -1 ∧
      (v_stag p).cx = 0 ∧
      ¬ (v_stag p).oob ∧
      (v_stag p).dx = p.x + 1/2 ∧
      (scatterStep (v_stag p) p.vy uw).1 (bottom_left_idx (v_stag p)) =
        uw.1 (bottom_left_idx (v_stag p)) + p.vy * bottom_left_w (v_stag p) ∧
      (scatterStep (v_stag p) p.vy uw).2 (bottom_left_idx (v_stag p)) =
        uw.2 (bottom_left_idx (v_stag p)) + bottom_left_w (v_stag p)) := by
  have hW : WIDTH = 7 := rfl
  have hH : HEIGHT = 7 := rfl
  constructor
  · intro hy1 hy2 hcx
    have hfl : Int.floor (p.y - 1/2) = -1 := by
      rw [Int.floor_eq_iff]
      constructor
      · push_cast
        linarith
      · push_cast
        linarith
    have hcy : (u_stag p).cy = 0 := by
      simp only [u_stag, hfl]
      rfl
    have hoob : ¬ (u_stag p).oob := by
      simp only [StagIdx.oob, hcy, not_or]
      omega
    refine ⟨hfl, hcy, hoob, ?_, ?_, ?_⟩
    · simp only [u_stag, hfl]
      push_cast
      ring
    · have n1 : bottom_left_idx (u_stag p) ≠ bottom_right_idx (u_stag p) := by
        simp only [bottom_left_idx, bottom_right_idx]
        omega
      have n2 : bottom_left_idx (u_stag p) ≠ top_left_idx (u_stag p) := by
        simp only [bottom_left_idx, top_left_idx, hW]
        omega
      have n3 : bottom_left_idx (u_stag p) ≠ top_right_idx (u_stag p) := by
        simp only [bottom_left_idx, top_right_idx, hW]
        omega
      simp only [scatterStep, hoob, if_false, ite_false, scatterAt,
        upd_ne _ _ _ n3, upd_ne _ _ _ n2, upd_ne _ _ _ n1, upd_self]
    · have n1 : bottom_left_idx (u_stag p) ≠ bottom_right_idx (u_stag p) := by
        simp only [bottom_left_idx, bottom_right_idx]
        omega
      have n2 : bottom_left_idx (u_stag p) ≠ top_left_idx (u_stag p) := by
        simp only [bottom_left_idx, top_left_idx, hW]
        omega
      have n3 : bottom_left_idx (u_stag p) ≠ top_right_idx (u_stag p) := by
        simp only [bottom_left_idx, top_right_idx, hW]
        omega
      simp only [scatterStep, hoob, if_false, ite_false, scatterAt,
        upd_ne _ _ _ n3, upd_ne _ _ _ n2, upd_ne _ _ _ n1, upd_self]
  · intro hx1 hx2 hcy
    have hfl : Int.floor (p.x - 1/2) = -1 := by
      rw [Int.floor_eq_iff]
      constructor
      · push_cast
        linarith
      · push_cast
        linarith
    have hcx : (v_stag p).cx = 0 := by
      simp only [v_stag, hfl]
      rfl
    have hoob : ¬ (v_stag p).oob := by
      simp only [StagIdx.oob, hcx, not_or]
      omega
    refine ⟨hfl, hcx, hoob, ?_, ?_, ?_⟩
    · simp only [v_stag, hfl]
      push_cast
      ring
    · have n1 : bottom_left_idx (v_stag p) ≠ bottom_right_idx (v_stag p) := by
        simp only [bottom_left_idx, bottom_right_idx]
        omega
      have n2 : bottom_left_idx (v_stag p) ≠ top_left_idx (v_stag p) := by
        simp only [bottom_left_idx, top_left_idx, hW]
        omega
      have n3 : bottom_left_idx (v_stag p) ≠ top_right_idx (v_stag p) := by
        simp only [bottom_left_idx, top_right_idx, hW]
        omega
      simp only [scatterStep, hoob, if_false, ite_false, scatterAt,
        upd_ne _ _ _ n3, upd_ne _ _ _ n2, upd_ne _ _ _ n1, upd_self]
    · have n1 : bottom_left_idx (v_stag p) ≠ bottom_right_idx (v_stag p) := by
        simp only [bottom_left_idx, bottom_right_idx]
        omega
      have n2 : bottom_left_idx (v_stag p) ≠ top_left_idx (v_stag p) := by
        simp only [bottom_left_idx, top_left_idx, hW]
        omega
      have n3 : bottom_left_idx (v_stag p) ≠ top_right_idx (v_stag p) := by
        simp only [bottom_left_idx, top_right_idx, hW]
        omega
      simp only [scatterStep, hoob, if_false, ite_false, scatterAt,
        upd_ne _ _ _ n3, upd_ne _ _ _ n2, upd_ne _ _ _ n1, upd_self]

/-- A particle below the staggered half-cell offset on both axes. -/
def pSat : Particle := { x := 1/4, y := 1/4, vx := 2, vy := 3 }

theorem c10_saturating_cast_witness :
    (-(1/2) ≤ pSat.y ∧ pSat.y < 1/2 ∧ (u_stag pSat).cx + 1 < WIDTH) ∧
    Int.floor (pSat.y - 1/2) = -1 ∧ (u_stag pSat).cy = 0 ∧ ¬ (u_stag pSat).oob ∧
    (u_stag pSat).dy = pSat.y + 1/2 ∧
    (scatterStep (u_stag pSat) pSat.vx (fun _ => 0, fun _ => 0)).2
        (bottom_left_idx (u_stag pSat)) =
      (fun _ => (0:ℚ)) (bottom_left_idx (u_stag pSat)) + bottom_left_w (u_stag pSat) ∧
    (v_stag pSat).cx = 0 := by
  have hy1 : -(1/2 : ℚ) ≤ pSat.y := by with_unfolding_all decide
  have hy2 : pSat.y < 1/2 := by with_unfolding_all decide
  have hcx : (u_stag pSat).cx + 1 < WIDTH := by with_unfolding_all decide
  have hx1 : -(1/2 : ℚ) ≤ pSat.x := by with_unfolding_all decide
  have hx2 : pSat.x < 1/2 := by with_unfolding_all decide
  have hcy : (v_stag pSat).cy + 1 < HEIGHT := by with_unfolding_all decide
  have h := c10_saturating_cast pSat (fun _ => 0, fun _ => 0)
  have hu := h.1 hy1 hy2 hcx
  have hv := h.2 hx1 hx2 hcy
  exact ⟨⟨hy1, hy2, hcx⟩, hu.1, hu.2.1, hu.2.2.1, hu.2.2.2.1, hu.2.2.2.2.2, hv.2.1⟩

/-! ## Claim C3: weight normalization -/

/-- Invariant of the (velocity-sum, weight-sum) accumulators: weights are
nonnegative and a node with zero accumulated weight also has a zero
accumulated velocity sum. -/
def scatterInv (acc : Grid × Grid) : Prop :=
  ∀ k, 0 ≤ acc.2 k ∧ (acc.2 k = 0 → acc.1 k = 0)

theorem scatterAt_inv {acc : Grid × Grid} {idx : Nat} {vel w : ℚ}
    (hw : 0 ≤ w) (h : scatterInv acc) : scatterInv (scatterAt acc idx vel w) := by
  intro k
  by_cases hk : k = idx
  · subst hk
    simp only [scatterAt, upd_self]
    refine ⟨add_nonneg (h k).1 hw, fun h0 => ?_⟩
    have hwk : acc.2 k = 0 ∧ w = 0 := by
      constructor <;> linarith [(h k).1]
    rw [(h k).2 hwk.1, hwk.2]
    ring
  · simp only [scatterAt, upd_ne _ _ _ hk]
    exact h k

theorem frac_bounds (q : ℚ) :
    0 ≤ q - (Int.floor q : ℚ) ∧ q - (Int.floor q : ℚ) ≤ 1 :=
  ⟨by linarith [Int.floor_le q], by linarith [Int.lt_floor_add_one q]⟩

theorem u_stag_dx_mem (p : Particle) :
    (0 ≤ (u_stag p).dx ∧ (u_stag p).dx ≤ 1) ∧
    (0 ≤ (u_stag p).dy ∧ (u_stag p).dy ≤ 1) :=
  ⟨frac_bounds p.x, frac_bounds (p.y - 1/2)⟩

theorem v_stag_dx_mem (p : Particle) :
    (0 ≤ (v_stag p).dx ∧ (v_stag p).dx ≤ 1) ∧
    (0 ≤ (v_stag p).dy ∧ (v_stag p).dy ≤ 1) :=
  ⟨frac_bounds (p.x - 1/2), frac_bounds p.y⟩

theorem weights_nonneg (c : StagIdx)
    (hdx : 0 ≤ c.dx ∧ c.dx ≤ 1) (hdy : 0 ≤ c.dy ∧ c.dy ≤ 1) :
    0 ≤ bottom_left_w c ∧ 0 ≤ bottom_right_w c ∧
    0 ≤ top_left_w c ∧ 0 ≤ top_right_w c := by
  refine ⟨?_, ?_, ?_, ?_⟩ <;>
    first
      | exact mul_nonneg (by linarith [hdx.1, hdx.2]) (by linarith [hdy.1, hdy.2])

theorem scatterStep_inv {c : StagIdx} {vel : ℚ} {acc : Grid × Grid}
    (hdx : 0 ≤ c.dx ∧ c.dx ≤ 1) (hdy : 0 ≤ c.dy ∧ c.dy ≤ 1)
    (h : scatterInv acc) : scatterInv (scatterStep c vel acc) := by
  have hw := weights_nonneg c hdx hdy
  unfold scatterStep
  split
  · exact h
  · exact scatterAt_inv hw.2.2.2
      (scatterAt_inv hw.2.2.1 (scatterAt_inv hw.2.1 (scatterAt_inv hw.1 h)))

theorem scatterU_inv (ps : List Particle) :
    scatterInv (scatterU ps (fun _ => 0, fun _ => 0)) := by
  refine foldl_inv (fun acc p h => ?_) ps _ (fun k => ⟨le_refl 0, fun _ => rfl⟩)
  exact scatterStep_inv (u_stag_dx_mem p).1 (u_stag_dx_mem p).2 h

theorem scatterV_inv (ps : List Particle) :
    scatterInv (scatterV ps (fun _ => 0, fun _ => 0)) := by
  refine foldl_inv (fun acc p h => ?_) ps _ (fun k => ⟨le_refl 0, fun _ => rfl⟩)
  exact scatterStep_inv (v_stag_dx_mem p).1 (v_stag_dx_mem p).2 h

/-- Claim C3: after the per-node normalization pass of
apply_particles_to_grid (before boundary enforcement), a node with nonzero
accumulated scatter weight holds the accumulated velocity-times-weight sum
divided by the accumulated weight, and a node with zero accumulated weight
holds exactly 0 — on both the u and the v staggered sub-grids. -/
theorem c3_weight_normalization (ps : List Particle) (k : Nat) :
    ((scatterU ps (fun _ => 0, fun _ => 0)).2 k ≠ 0 →
      normalizeGrid (scatterU ps (fun _ => 0, fun _ => 0)) k =
        (scatterU ps (fun _ => 0, fun _ => 0)).1 k /
          (scatterU ps (fun _ => 0, fun _ => 0)).2 k) ∧
    ((scatterU ps (fun _ => 0, fun _ => 0)).2 k = 0 →
      normalizeGrid (scatterU ps (fun _ => 0, fun _ => 0)) k = 0) ∧
    ((scatterV ps (fun _ => 0, fun _ => 0)).2 k ≠ 0 →
      normalizeGrid (scatterV ps (fun _ => 0, fun _ => 0)) k =
        (scatterV ps (fun _ => 0, fun _ => 0)).1 k /
          (scatterV ps (fun _ => 0, fun _ => 0)).2 k) ∧
    ((scatterV ps (fun _ => 0, fun _ => 0)).2 k = 0 →
      normalizeGrid (scatterV ps (fun _ => 0, fun _ => 0)) k = 0) := by
  have hu := scatterU_inv ps k
  have hv := scatterV_inv ps k
  refine ⟨fun hne => ?_, fun h0 => ?_, fun hne => ?_, fun h0 => ?_⟩
  · have hpos : 0 < (scatterU ps (fun _ => 0, fun _ => 0)).2 k :=
      lt_of_le_of_ne hu.1 (Ne.symm hne)
    simp only [normalizeGrid, if_pos hpos]
  · have hneg : ¬ 0 < (scatterU ps (fun _ => 0, fun _ => 0)).2 k := by
      rw [h0]
      exact lt_irrefl 0
    simp only [normalizeGrid, if_neg hneg]
    exact hu.2 h0
  · have hpos : 0 < (scatterV ps (fun _ => 0, fun _ => 0)).2 k :=
      lt_of_le_of_ne hv.1 (Ne.symm hne)
    simp only [normalizeGrid, if_pos hpos]
  · have hneg : ¬ 0 < (scatterV ps (fun _ => 0, fun _ => 0)).2 k := by
      rw [h0]
      exact lt_irrefl 0
    simp only [normalizeGrid, if_neg hneg]
    exact hv.2 h0

/-- The one-particle list of the witness state. -/
def psOne : List Particle := [{ x := 3/2, y := 3/2, vx := 4, vy := 0 }]

theorem c3_weight_normalization_witness :
    (scatterU psOne (fun _ => 0, fun _ => 0)).2 8 ≠ 0 ∧
    normalizeGrid (scatterU psOne (fun _ => 0, fun _ => 0)) 8 =
      (scatterU psOne (fun _ => 0, fun _ => 0)).1 8 /
        (scatterU psOne (fun _ => 0, fun _ => 0)).2 8 ∧
    (scatterU psOne (fun _ => 0, fun _ => 0)).2 0 = 0 ∧
    normalizeGrid (scatterU psOne (fun _ => 0, fun _ => 0)) 0 = 0 := by
  have hne : (scatterU psOne (fun _ => 0, fun _ => 0)).2 8 ≠ 0 := by
    with_unfolding_all decide
  have h0 : (scatterU psOne (fun _ => 0, fun _ => 0)).2 0 = 0 := by
    with_unfolding_all decide
  exact ⟨hne, (c3_weight_normalization psOne 8).1 hne, h0,
    (c3_weight_normalization psOne 0).2.1 h0⟩

/-! ## Claim C4: solid-face velocity samples are zero after P2G -/

theorem upd_val (f : Grid) (i : Nat) (a : ℚ) (k : Nat) :
    upd f i a k = f k ∨ upd f i a k = a := by
  by_cases h : k = i
  · subst h
    right
    exact upd_self f k a
  · left
    exact upd_ne f i a h

theorem range_split (n m : Nat) (h : m < n) :
    List.range n = List.range (m+1) ++ List.range' (m+1) (n-(m+1)) := by
  have happ := List.range'_append 0 (m+1) (n-(m+1)) 1
  simp only [Nat.zero_add, Nat.one_mul] at happ
  rw [List.range_eq_range', List.range_eq_range', happ]
  congr 1
  omega

theorem enforceStep_fst (ct : Nat → CellType) (uv : Grid × Grid) (j i : Nat) :
    (enforceStep ct uv j i).1 =
      if ct (j * WIDTH + i) = CellType.Solid then
        (if i < WIDTH - 1 then upd (upd uv.1 (j * WIDTH + i) 0) (j * WIDTH + i + 1) 0
         else upd uv.1 (j * WIDTH + i) 0)
      else uv.1 := by
  simp only [enforceStep, apply_ite Prod.fst]

theorem enforceStep_snd (ct : Nat → CellType) (uv : Grid × Grid) (j i : Nat) :
    (enforceStep ct uv j i).2 =
      if ct (j * WIDTH + i) = CellType.Solid then
        (if j < HEIGHT - 1 then upd (upd uv.2 (j * WIDTH + i) 0) (j * WIDTH + i + WIDTH) 0
         else upd uv.2 (j * WIDTH + i) 0)
      else uv.2 := by
  simp only [enforceStep, apply_ite Prod.snd]

/-- Every write of the boundary-enforcement body stores the value 0, so at
any fixed index the body either keeps a sample or zeroes it. -/
theorem enforceStep_val (ct : Nat → CellType) (uv : Grid × Grid) (j i k : Nat) :
    ((enforceStep ct uv j i).1 k = uv.1 k ∨ (enforceStep ct uv j i).1 k = 0) ∧
    ((enforceStep ct uv j i).2 k = uv.2 k ∨ (enforceStep ct uv j i).2 k = 0) := by
  rw [enforceStep_fst, enforceStep_snd]
  constructor
  · split
    · split
      · rcases upd_val (upd uv.1 (j * WIDTH + i) 0) (j * WIDTH + i + 1) 0 k with h1 | h1 <;>
          rw [h1]
        · rcases upd_val uv.1 (j * WIDTH + i) 0 k with h2 | h2 <;> rw [h2]
          · exact Or.inl rfl
          · exact Or.inr rfl
        · exact Or.inr rfl
      · rcases upd_val uv.1 (j * WIDTH + i) 0 k with h2 | h2 <;> rw [h2]
        · exact Or.inl rfl
        · exact Or.inr rfl
    · exact Or.inl rfl
  · split
    · split
      · rcases upd_val (upd uv.2 (j * WIDTH + i) 0) (j * WIDTH + i + WIDTH) 0 k with h1 | h1 <;>
          rw [h1]
        · rcases upd_val uv.2 (j * WIDTH + i) 0 k with h2 | h2 <;> rw [h2]
          · exact Or.inl rfl
          · exact Or.inr rfl
        · exact Or.inr rfl
      · rcases upd_val uv.2 (j * WIDTH + i) 0 k with h2 | h2 <;> rw [h2]
        · exact Or.inl rfl
        · exact Or.inr rfl
    · exact Or.inl rfl

theorem enforceStep_pres_u (ct : Nat → CellType) (uv : Grid × Grid) (j i k : Nat)
    (h : uv.1 k = 0) : (enforceStep ct uv j i).1 k = 0 := by
  rcases (enforceStep_val ct uv j i k).1 with h1 | h1
  · rw [h1, h]
  · exact h1

theorem enforceStep_pres_v (ct : Nat → CellType) (uv : Grid × Grid) (j i k : Nat)
    (h : uv.2 k = 0) : (enforceStep ct uv j i).2 k = 0 := by
  rcases (enforceStep_val ct uv j i k).2 with h1 | h1
  · rw [h1, h]
  · exact h1

/-- Processing a Solid cell zeroes its own u and v samples and, when in
bounds, the u sample to its right and the v sample one row up. -/
theorem enforceStep_establish (ct : Nat → CellType) (uv : Grid × Grid) (j i : Nat)
    (hct : ct (j * WIDTH + i) = CellType.Solid) :
    (enforceStep ct uv j i).1 (j * WIDTH + i) = 0 ∧
    (enforceStep ct uv j i).2 (j * WIDTH + i) = 0 ∧
    (i < WIDTH - 1 → (enforceStep ct uv j i).1 (j * WIDTH + i + 1) = 0) ∧
    (j < HEIGHT - 1 → (enforceStep ct uv j i).2 (j * WIDTH + i + WIDTH) = 0) := by
  have hne1 : j * WIDTH + i ≠ j * WIDTH + i + 1 := by omega
  have hne2 : j * WIDTH + i ≠ j * WIDTH + i + WIDTH := by
    have hW : WIDTH = 7 := rfl
    omega
  rw [enforceStep_fst, enforceStep_snd, if_pos hct, if_pos hct]
  refine ⟨?_, ?_, ?_, ?_⟩
  · split
    · rw [upd_ne _ _ _ hne1, upd_self]
    · rw [upd_self]
  · split
    · rw [upd_ne _ _ _ hne2, upd_self]
    · rw [upd_self]
  · intro hlt
    rw [if_pos hlt, upd_self]
  · intro hlt
    rw [if_pos hlt, upd_self]

/-- After the full boundary-enforcement pass, every Solid cell's face
samples are zero. -/
theorem enforceBoundary_solid (ct : Nat → CellType) (uv : Grid × Grid) (i j : Nat)
    (hi : i < WIDTH) (hj : j < HEIGHT) (hct : ct (j * WIDTH + i) = CellType.Solid) :
    (enforceBoundary ct uv).1 (j * WIDTH + i) = 0 ∧
    (enforceBoundary ct uv).2 (j * WIDTH + i) = 0 ∧
    (i < WIDTH - 1 → (enforceBoundary ct uv).1 (j * WIDTH + i + 1) = 0) ∧
    (j < HEIGHT - 1 → (enforceBoundary ct uv).2 (j * WIDTH + i + WIDTH) = 0) := by
  set P : Grid × Grid → Prop := fun uv =>
    uv.1 (j * WIDTH + i) = 0 ∧ uv.2 (j * WIDTH + i) = 0 ∧
    (i < WIDTH - 1 → uv.1 (j * WIDTH + i + 1) = 0) ∧
    (j < HEIGHT - 1 → uv.2 (j * WIDTH + i + WIDTH) = 0) with hP
  have hpres : ∀ (uv : Grid × Grid) (j' i' : Nat), P uv → P (enforceStep ct uv j' i') := by
    intro uv j' i' h
    exact ⟨enforceStep_pres_u ct uv j' i' _ h.1,
      enforceStep_pres_v ct uv j' i' _ h.2.1,
      fun hlt => enforceStep_pres_u ct uv j' i' _ (h.2.2.1 hlt),
      fun hlt => enforceStep_pres_v ct uv j' i' _ (h.2.2.2 hlt)⟩
  have hrow : ∀ uv0 : Grid × Grid,
      P ((List.range WIDTH).foldl (fun uv i' => enforceStep ct uv j i') uv0) := by
    intro uv0
    rw [range_split WIDTH i hi, List.foldl_append, List.range_succ, List.foldl_append]
    refine foldl_inv (fun a b h => hpres a j b h) _ _ ?_
    simp only [List.foldl_cons, List.foldl_nil]
    exact enforceStep_establish ct _ j i hct
  show P (enforceBoundary ct uv)
  unfold enforceBoundary
  set f : Grid × Grid → Nat → Grid × Grid :=
    fun uv j' => (List.range WIDTH).foldl (fun uv i' => enforceStep ct uv j' i') uv with hf
  have hfpres : ∀ (a : Grid × Grid) (b : Nat), P a → P (f a b) := by
    intro a b h
    rw [hf]
    exact foldl_inv (fun a2 b2 h2 => hpres a2 b b2 h2) _ _ h
  rw [range_split HEIGHT j hj, List.foldl_append, List.range_succ, List.foldl_append]
  refine foldl_inv hfpres _ _ ?_
  simp only [List.foldl_cons, List.foldl_nil]
  rw [hf]
  exact hrow _

theorem applyParticlesToGrid_fields (g : FluidSim) :
    (applyParticlesToGrid g).cell_types = markFluid g.particles (classifyBase g.s) ∧
    (applyParticlesToGrid g).u =
      (enforceBoundary (markFluid g.particles (classifyBase g.s))
        (normalizeGrid (scatterU g.particles (fun _ => 0, fun _ => 0)),
         normalizeGrid (scatterV g.particles (fun _ => 0, fun _ => 0)))).1 ∧
    (applyParticlesToGrid g).v =
      (enforceBoundary (markFluid g.particles (classifyBase g.s))
        (normalizeGrid (scatterU g.particles (fun _ => 0, fun _ => 0)),
         normalizeGrid (scatterV g.particles (fun _ => 0, fun _ => 0)))).2 := by
  constructor
  · rfl
  · constructor <;> rfl

/-- Claim C4: after apply_particles_to_grid (including its boundary
enforcement), every Solid-classified cell stores u = 0 and v = 0 at its own
index, and, when in bounds, the u sample of the cell to its right and the v
sample of the cell one row up are also 0 — every velocity sample on a face
of a Solid cell is zero. -/
theorem c4_solid_impermeability (g : FluidSim) (i j : Nat)
    (hi : i < WIDTH) (hj : j < HEIGHT)
    (hct : (applyParticlesToGrid g).cell_types (j * WIDTH + i) = CellType.Solid) :
    (applyParticlesToGrid g).u (j * WIDTH + i) = 0 ∧
    (applyParticlesToGrid g).v (j * WIDTH + i) = 0 ∧
    (i < WIDTH - 1 → (applyParticlesToGrid g).u (j * WIDTH + i + 1) = 0) ∧
    (j < HEIGHT - 1 → (applyParticlesToGrid g).v (j * WIDTH + i + WIDTH) = 0) := by
  obtain ⟨hctf, hu, hv⟩ := applyParticlesToGrid_fields g
  rw [hctf] at hct
  rw [hu, hv]
  exact enforceBoundary_solid _ _ i j hi hj hct

theorem c4_solid_impermeability_witness :
    (applyParticlesToGrid gWitness).cell_types (0 * WIDTH + 0) = CellType.Solid ∧
    (applyParticlesToGrid gWitness).u (0 * WIDTH + 0) = 0 ∧
    (applyParticlesToGrid gWitness).v (0 * WIDTH + 0) = 0 ∧
    (0 < WIDTH - 1 → (applyParticlesToGrid gWitness).u (0 * WIDTH + 0 + 1) = 0) ∧
    (0 < HEIGHT - 1 → (applyParticlesToGrid gWitness).v (0 * WIDTH + 0 + WIDTH) = 0) := by
  have hct : (applyParticlesToGrid gWitness).cell_types (0 * WIDTH + 0) = CellType.Solid := by
    with_unfolding_all decide
  exact ⟨hct, c4_solid_impermeability gWitness 0 0 (by decide) (by decide) hct⟩

/-! ## Claim C6: the per-frame cell classification -/

/-- A particle marks the cell idx: its saturated floored position is in
bounds and its row-major index is idx. -/
def hitsCell (p : Particle) (idx : Nat) : Prop :=
  floorToUsize p.x < WIDTH ∧ floorToUsize p.y < HEIGHT ∧
  floorToUsize p.y * WIDTH + floorToUsize p.x = idx

instance (p : Particle) (idx : Nat) : Decidable (hitsCell p idx) := by
  unfold hitsCell; exact inferInstance

theorem updCT_self (f : Nat → CellType) (i : Nat) (t : CellType) : updCT f i t i = t := by
  simp [updCT]

theorem updCT_ne (f : Nat → CellType) (i : Nat) (t : CellType) {j : Nat} (h : j ≠ i) :
    updCT f i t j = f j := by
  simp [updCT, h]

theorem markStep_solid (ct : Nat → CellType) (p : Particle) (idx : Nat) :
    markStep ct p idx = CellType.Solid ↔ ct idx = CellType.Solid := by
  unfold markStep
  split
  · split
    · rename_i hb hns
      by_cases hk : idx = floorToUsize p.y * WIDTH + floorToUsize p.x
      · subst hk
        rw [updCT_self]
        constructor
        · intro h
          exact absurd h (by simp)
        · intro h
          exact absurd h hns
      · rw [updCT_ne _ _ _ hk]
    · exact Iff.rfl
  · exact Iff.rfl

theorem markFluid_solid (ps : List Particle) :
    ∀ (ct : Nat → CellType) (idx : Nat),
      markFluid ps ct idx = CellType.Solid ↔ ct idx = CellType.Solid := by
  induction ps with
  | nil => exact fun ct idx => Iff.rfl
  | cons p t ih =>
    intro ct idx
    show markFluid t (markStep ct p) idx = CellType.Solid ↔ _
    exact (ih (markStep ct p) idx).trans (markStep_solid ct p idx)

theorem markStep_fluid (ct : Nat → CellType) (p : Particle) (idx : Nat)
    (h : ct idx ≠ CellType.Solid) :
    markStep ct p idx = CellType.Fluid ↔ hitsCell p idx ∨ ct idx = CellType.Fluid := by
  unfold markStep
  split
  · rename_i hb
    split
    · rename_i hns
      by_cases hk : idx = floorToUsize p.y * WIDTH + floorToUsize p.x
      · subst hk
        rw [updCT_self]
        constructor
        · intro _
          exact Or.inl ⟨hb.1, hb.2, rfl⟩
        · intro _
          rfl
      · rw [updCT_ne _ _ _ hk]
        constructor
        · exact fun hf => Or.inr hf
        · intro hor
          rcases hor with hh | hf
          · exact absurd hh.2.2 (fun he => hk he.symm)
          · exact hf
    · rename_i hns
      push_neg at hns
      constructor
      · exact fun hf => Or.inr hf
      · intro hor
        rcases hor with hh | hf
        · rw [← hh.2.2] at h
          exact absurd hns h
        · exact hf
  · rename_i hb
    constructor
    · exact fun hf => Or.inr hf
    · intro hor
      rcases hor with hh | hf
      · exact absurd (And.intro hh.1 hh.2.1) hb
      · exact hf

theorem markFluid_fluid (ps : List Particle) :
    ∀ (ct : Nat → CellType) (idx : Nat), ct idx ≠ CellType.Solid →
      (markFluid ps ct idx = CellType.Fluid ↔
        (∃ p ∈ ps, hitsCell p idx) ∨ ct idx = CellType.Fluid) := by
  induction ps with
  | nil =>
    intro ct idx h
    simp only [markFluid, List.foldl_nil, List.not_mem_nil]
    constructor
    · exact fun hf => Or.inr hf
    · intro hor
      rcases hor with ⟨p, hp, _⟩ | hf
      · exact absurd hp (by simp)
      · exact hf
  | cons p t ih =>
    intro ct idx h
    have hstep : markStep ct p idx ≠ CellType.Solid := by
      intro hs
      exact h ((markStep_solid ct p idx).mp hs)
    have h1 : markFluid (p :: t) ct idx = markFluid t (markStep ct p) idx := rfl
    rw [h1, ih (markStep ct p) idx hstep, markStep_fluid ct p idx h]
    constructor
    · intro hor
      rcases hor with ⟨q, hq, hh⟩ | hh | hf
      · exact Or.inl ⟨q, List.mem_cons_of_mem p hq, hh⟩
      · exact Or.inl ⟨p, List.mem_cons_self p t, hh⟩
      · exact Or.inr hf
    · intro hor
      rcases hor with ⟨q, hq, hh⟩ | hf
      · rcases List.mem_cons.mp hq with rfl | hmem
        · exact Or.inr (Or.inl hh)
        · exact Or.inl ⟨q, hmem, hh⟩
      · exact Or.inr (Or.inr hf)

theorem markStep_cases (ct : Nat → CellType) (p : Particle) (idx : Nat) :
    markStep ct p idx = ct idx ∨ markStep ct p idx = CellType.Fluid := by
  unfold markStep
  split
  · split
    · by_cases hk : idx = floorToUsize p.y * WIDTH + floorToUsize p.x
      · subst hk
        exact Or.inr (updCT_self _ _ _)
      · exact Or.inl (updCT_ne _ _ _ hk)
    · exact Or.inl rfl
  · exact Or.inl rfl

theorem markFluid_cases (ps : List Particle) :
    ∀ (ct : Nat → CellType) (idx : Nat),
      markFluid ps ct idx = ct idx ∨ markFluid ps ct idx = CellType.Fluid := by
  induction ps with
  | nil => exact fun ct idx => Or.inl rfl
  | cons p t ih =>
    intro ct idx
    have h1 : markFluid (p :: t) ct idx = markFluid t (markStep ct p) idx := rfl
    rw [h1]
    rcases ih (markStep ct p) idx with h2 | h2
    · rw [h2]
      exact markStep_cases ct p idx
    · exact Or.inr h2

theorem hitsCell_iff (p : Particle) (ix iy : Nat) (hix : ix < WIDTH) (hiy : iy < HEIGHT)
    (hp : 0 ≤ p.x ∧ 0 ≤ p.y) :
    hitsCell p (iy * WIDTH + ix) ↔ Int.floor p.x = (ix : ℤ) ∧ Int.floor p.y = (iy : ℤ) := by
  have hfx : (floorToUsize p.x : ℤ) = Int.floor p.x := by
    unfold floorToUsize
    exact Int.toNat_of_nonneg (Int.floor_nonneg.mpr hp.1)
  have hfy : (floorToUsize p.y : ℤ) = Int.floor p.y := by
    unfold floorToUsize
    exact Int.toNat_of_nonneg (Int.floor_nonneg.mpr hp.2)
  have hW : WIDTH = 7 := rfl
  have hH : HEIGHT = 7 := rfl
  rw [hW] at hix
  rw [hH] at hiy
  unfold hitsCell
  rw [hW, hH]
  constructor
  · intro ⟨h1, h2, h3⟩
    have hx : floorToUsize p.x = ix := by omega
    have hy : floorToUsize p.y = iy := by omega
    constructor
    · rw [← hfx, hx]
    · rw [← hfy, hy]
  · intro ⟨h1, h2⟩
    have hx : floorToUsize p.x = ix := by
      have h3 := hfx.trans h1
      exact_mod_cast h3
    have hy : floorToUsize p.y = iy := by
      have h3 := hfy.trans h2
      exact_mod_cast h3
    exact ⟨by omega, by omega, by rw [hx, hy]⟩

/-- Claim C6: after the classification phase of apply_particles_to_grid, a
cell is Solid iff its solid indicator is 0; an open cell (s = 1) is Fluid
iff some particle's floored position equals the cell's coordinates, and Air
otherwise.  (Particle coordinates are nonnegative in every state the
program reaches, which makes the saturating index cast coincide with the
mathematical floor.) -/
theorem c6_classification (g : FluidSim) (ix iy : Nat)
    (hix : ix < WIDTH) (hiy : iy < HEIGHT)
    (hpos : ∀ p ∈ g.particles, 0 ≤ p.x ∧ 0 ≤ p.y) :
    ((applyParticlesToGrid g).cell_types (iy * WIDTH + ix) = CellType.Solid ↔
      g.s (iy * WIDTH + ix) = 0) ∧
    (g.s (iy * WIDTH + ix) = 1 →
      (((applyParticlesToGrid g).cell_types (iy * WIDTH + ix) = CellType.Fluid ↔
         ∃ p ∈ g.particles, Int.floor p.x = (ix : ℤ) ∧ Int.floor p.y = (iy : ℤ)) ∧
       ((applyParticlesToGrid g).cell_types (iy * WIDTH + ix) = CellType.Air ↔
         ¬ ∃ p ∈ g.particles, Int.floor p.x = (ix : ℤ) ∧ Int.floor p.y = (iy : ℤ)))) := by
  have hctf := (applyParticlesToGrid_fields g).1
  rw [hctf]
  have hbase : ∀ idx, classifyBase g.s idx = CellType.Solid ↔ g.s idx = 0 := by
    intro idx
    unfold classifyBase
    split
    · rename_i h0
      simp [h0]
    · rename_i h0
      constructor
      · intro h
        exact absurd h (by simp)
      · intro h
        exact absurd h h0
  constructor
  · exact (markFluid_solid g.particles (classifyBase g.s) (iy * WIDTH + ix)).trans
      (hbase (iy * WIDTH + ix))
  · intro hs1
    have hbase_air : classifyBase g.s (iy * WIDTH + ix) = CellType.Air := by
      unfold classifyBase
      rw [if_neg]
      rw [hs1]
      norm_num
    have hns : classifyBase g.s (iy * WIDTH + ix) ≠ CellType.Solid := by
      rw [hbase_air]
      simp
    have hfl := markFluid_fluid g.particles (classifyBase g.s) (iy * WIDTH + ix) hns
    rw [hbase_air] at hfl
    have hfl2 : markFluid g.particles (classifyBase g.s) (iy * WIDTH + ix) = CellType.Fluid ↔
        ∃ p ∈ g.particles, hitsCell p (iy * WIDTH + ix) := by
      rw [hfl]
      constructor
      · intro hor
        rcases hor with hh | hf
        · exact hh
        · exact absurd hf (by simp)
      · exact fun hh => Or.inl hh
    have hex : (∃ p ∈ g.particles, hitsCell p (iy * WIDTH + ix)) ↔
        ∃ p ∈ g.particles, Int.floor p.x = (ix : ℤ) ∧ Int.floor p.y = (iy : ℤ) := by
      constructor
      · intro ⟨p, hmem, hh⟩
        exact ⟨p, hmem, (hitsCell_iff p ix iy hix hiy (hpos p hmem)).mp hh⟩
      · intro ⟨p, hmem, hh⟩
        exact ⟨p, hmem, (hitsCell_iff p ix iy hix hiy (hpos p hmem)).mpr hh⟩
    constructor
    · exact hfl2.trans hex
    · rw [← hex]
      constructor
      · intro hair hexists
        have := (hfl2.mpr hexists)
        rw [this] at hair
        exact absurd hair (by simp)
      · intro hnex
        rcases markFluid_cases g.particles (classifyBase g.s) (iy * WIDTH + ix) with h2 | h2
        · rw [h2, hbase_air]
        · exact absurd (hfl2.mp h2) hnex

theorem c6_classification_witness :
    (∀ p ∈ gWitness.particles, 0 ≤ p.x ∧ 0 ≤ p.y) ∧
    gWitness.s (1 * WIDTH + 1) = 1 ∧
    ((applyParticlesToGrid gWitness).cell_types (1 * WIDTH + 1) = CellType.Solid ↔
      gWitness.s (1 * WIDTH + 1) = 0) ∧
    ((applyParticlesToGrid gWitness).cell_types (1 * WIDTH + 1) = CellType.Fluid ↔
      ∃ p ∈ gWitness.particles, Int.floor p.x = (1 : ℤ) ∧ Int.floor p.y = (1 : ℤ)) := by
  have hpos : ∀ p ∈ gWitness.particles, 0 ≤ p.x ∧ 0 ≤ p.y := by
    with_unfolding_all decide
  have hs1 : gWitness.s (1 * WIDTH + 1) = 1 := by with_unfolding_all decide
  have h := c6_classification gWitness 1 1 (by decide) (by decide) hpos
  exact ⟨hpos, hs1, h.1, ((h.2 hs1).1.trans (by norm_num))⟩

/-! ## Claim C9: the display density field -/

theorem displayFold_spec (ps : List Particle) :
    ∀ (d : Grid) (idx : Nat),
      ((∃ p ∈ ps, hitsCell p idx) → ps.foldl displayStep d idx = 1) ∧
      ((¬ ∃ p ∈ ps, hitsCell p idx) → ps.foldl displayStep d idx = d idx) := by
  induction ps with
  | nil =>
    intro d idx
    constructor
    · intro ⟨p, hp, _⟩
      exact absurd hp (by simp)
    · intro _
      rfl
  | cons p t ih =>
    intro d idx
    have hfold : (p :: t).foldl displayStep d = t.foldl displayStep (displayStep d p) := rfl
    rw [hfold]
    constructor
    · intro ⟨q, hq, hh⟩
      by_cases hrest : ∃ q ∈ t, hitsCell q idx
      · exact (ih _ idx).1 hrest
      · rw [(ih _ idx).2 hrest]
        have hp : hitsCell p idx := by
          rcases List.mem_cons.mp hq with rfl | hmem
          · exact hh
          · exact absurd ⟨q, hmem, hh⟩ hrest
        unfold displayStep
        rw [if_pos ⟨hp.1, hp.2.1⟩, ← hp.2.2, upd_self]
    · intro hnone
      have hrest : ¬ ∃ q ∈ t, hitsCell q idx := by
        intro ⟨q, hmem, hh⟩
        exact hnone ⟨q, List.mem_cons_of_mem p hmem, hh⟩
      have hnp : ¬ hitsCell p idx := by
        intro hh
        exact hnone ⟨p, List.mem_cons_self p t, hh⟩
      rw [(ih _ idx).2 hrest]
      unfold displayStep
      split
      · rename_i hb
        rw [upd_ne]
        intro he
        exact hnp ⟨hb.1, hb.2, he.symm⟩
      · rfl

/-- Claim C9: after update_display_grid, a cell's display density is exactly
1 when it is the (floored) containing cell of at least one particle and
exactly 0 otherwise; extra particles in the same cell have no further
effect.  (Particle coordinates are nonnegative in every reachable state,
making the saturating index cast coincide with the floor.) -/
theorem c9_display_density (g : FluidSim) (ix iy : Nat)
    (hix : ix < WIDTH) (hiy : iy < HEIGHT)
    (hpos : ∀ p ∈ g.particles, 0 ≤ p.x ∧ 0 ≤ p.y) :
    ((∃ p ∈ g.particles, Int.floor p.x = (ix : ℤ) ∧ Int.floor p.y = (iy : ℤ)) →
      (updateDisplayGrid g).display_density (iy * WIDTH + ix) = 1) ∧
    ((¬ ∃ p ∈ g.particles, Int.floor p.x = (ix : ℤ) ∧ Int.floor p.y = (iy : ℤ)) →
      (updateDisplayGrid g).display_density (iy * WIDTH + ix) = 0) := by
  have hdf : (updateDisplayGrid g).display_density =
      g.particles.foldl displayStep (fun _ => 0) := rfl
  rw [hdf]
  have hex : (∃ p ∈ g.particles, hitsCell p (iy * WIDTH + ix)) ↔
      ∃ p ∈ g.particles, Int.floor p.x = (ix : ℤ) ∧ Int.floor p.y = (iy : ℤ) := by
    constructor
    · intro ⟨p, hmem, hh⟩
      exact ⟨p, hmem, (hitsCell_iff p ix iy hix hiy (hpos p hmem)).mp hh⟩
    · intro ⟨p, hmem, hh⟩
      exact ⟨p, hmem, (hitsCell_iff p ix iy hix hiy (hpos p hmem)).mpr hh⟩
  constructor
  · intro hh
    exact (displayFold_spec g.particles (fun _ => 0) (iy * WIDTH + ix)).1 (hex.mpr hh)
  · intro hh
    exact (displayFold_spec g.particles (fun _ => 0) (iy * WIDTH + ix)).2
      (fun hc => hh (hex.mp hc))

/-- A state with every particle concentrated in interior cell (2, 2). -/
def gDisp : FluidSim :=
  { gWitness with particles := [{ x := 5/2, y := 5/2, vx := 0, vy := 0 }] }

theorem c9_display_density_witness :
    (∀ p ∈ gDisp.particles, 0 ≤ p.x ∧ 0 ≤ p.y) ∧
    (∃ p ∈ gDisp.particles, Int.floor p.x = (2 : ℤ) ∧ Int.floor p.y = (2 : ℤ)) ∧
    (updateDisplayGrid gDisp).display_density (2 * WIDTH + 2) = 1 ∧
    (¬ ∃ p ∈ gDisp.particles, Int.floor p.x = (1 : ℤ) ∧ Int.floor p.y = (1 : ℤ)) ∧
    (updateDisplayGrid gDisp).display_density (1 * WIDTH + 1) = 0 := by
  have hpos : ∀ p ∈ gDisp.particles, 0 ≤ p.x ∧ 0 ≤ p.y := by
    with_unfolding_all decide
  have hex : ∃ p ∈ gDisp.particles, Int.floor p.x = (2 : ℤ) ∧ Int.floor p.y = (2 : ℤ) := by
    with_unfolding_all decide
  have hnex : ¬ ∃ p ∈ gDisp.particles, Int.floor p.x = (1 : ℤ) ∧ Int.floor p.y = (1 : ℤ) := by
    with_unfolding_all decide
  exact ⟨hpos, hex,
    (c9_display_density gDisp 2 2 (by decide) (by decide) hpos).1 hex, hnex,
    (c9_display_density gDisp 1 1 (by decide) (by decide) hpos).2 hnex⟩

/-! ## Claim C8: what the projection leaves untouched -/

/-- Claim C8 counterexample: apply_incompressibility_to_grid does modify a
velocity sample stored at an Air cell's index — the correction of the Fluid
cell at index 8 is added into u at the adjacent Air cell's index 9. -/
theorem c8_projection_counterexample :
    gProj.cell_types 9 = CellType.Air ∧
    (applyIncompressibilityToGrid gProj).u 9 ≠ gProj.u 9 := by
  constructor
  · with_unfolding_all decide
  · with_unfolding_all decide

theorem projectCell_skip (s : Grid) (ct : Nat → CellType) (st : Grid × Grid × Grid)
    (idx : Nat) (h : ct idx ≠ CellType.Fluid) : projectCell s ct st idx = st := by
  unfold projectCell
  rw [if_pos h]

theorem projectCell_skip0 (s : Grid) (ct : Nat → CellType) (st : Grid × Grid × Grid)
    (idx : Nat) (hct : ct idx = CellType.Fluid)
    (hsum : s (idx - 1) + s (idx + 1) + s (idx - WIDTH) + s (idx + WIDTH) = 0) :
    projectCell s ct st idx = st := by
  unfold projectCell
  rw [if_neg (not_not_intro hct), if_pos hsum]

theorem projectCell_active (s : Grid) (ct : Nat → CellType) (st : Grid × Grid × Grid)
    (idx : Nat) (hct : ct idx = CellType.Fluid)
    (hsum : s (idx - 1) + s (idx + 1) + s (idx - WIDTH) + s (idx + WIDTH) ≠ 0) :
    projectCell s ct st idx =
      (upd st.1 idx (st.1 idx +
          -(st.2.1 (idx + 1) - st.2.1 idx + st.2.2 (idx + WIDTH) - st.2.2 idx) /
            (s (idx - 1) + s (idx + 1) + s (idx - WIDTH) + s (idx + WIDTH)) *
            OVER_RELAXATION),
       upd (upd st.2.1 idx (st.2.1 idx -
            -(st.2.1 (idx + 1) - st.2.1 idx + st.2.2 (idx + WIDTH) - st.2.2 idx) /
              (s (idx - 1) + s (idx + 1) + s (idx - WIDTH) + s (idx + WIDTH)) *
              OVER_RELAXATION * s (idx - 1)))
         (idx + 1) (st.2.1 (idx + 1) +
            -(st.2.1 (idx + 1) - st.2.1 idx + st.2.2 (idx + WIDTH) - st.2.2 idx) /
              (s (idx - 1) + s (idx + 1) + s (idx - WIDTH) + s (idx + WIDTH)) *
              OVER_RELAXATION * s (idx + 1)),
       upd (upd st.2.2 idx (st.2.2 idx -
            -(st.2.1 (idx + 1) - st.2.1 idx + st.2.2 (idx + WIDTH) - st.2.2 idx) /
              (s (idx - 1) + s (idx + 1) + s (idx - WIDTH) + s (idx + WIDTH)) *
              OVER_RELAXATION * s (idx - WIDTH)))
         (idx + WIDTH) (st.2.2 (idx + WIDTH) +
            -(st.2.1 (idx + 1) - st.2.1 idx + st.2.2 (idx + WIDTH) - st.2.2 idx) /
              (s (idx - 1) + s (idx + 1) + s (idx - WIDTH) + s (idx + WIDTH)) *
              OVER_RELAXATION * s (idx + WIDTH))) := by
  unfold projectCell
  rw [if_neg (not_not_intro hct), if_neg hsum]

theorem projectCell_pres_p (s : Grid) (ct : Nat → CellType) (st : Grid × Grid × Grid)
    (idx k : Nat) (hk : ct k ≠ CellType.Fluid) (h : st.1 k = 0) :
    (projectCell s ct st idx).1 k = 0 := by
  by_cases hct : ct idx = CellType.Fluid
  · by_cases hsum : s (idx - 1) + s (idx + 1) + s (idx - WIDTH) + s (idx + WIDTH) = 0
    · rw [projectCell_skip0 s ct st idx hct hsum]
      exact h
    · rw [projectCell_active s ct st idx hct hsum]
      have hne : k ≠ idx := fun he => hk (he ▸ hct)
      exact (upd_ne _ _ _ hne).trans h
  · rw [projectCell_skip s ct st idx hct]
    exact h

theorem projectCell_pres_uv (s : Grid) (ct : Nat → CellType) (st : Grid × Grid × Grid)
    (idx k : Nat) (hk : ct k = CellType.Solid) (hsk : s k = 0) :
    (projectCell s ct st idx).2.1 k = st.2.1 k ∧
    (projectCell s ct st idx).2.2 k = st.2.2 k := by
  by_cases hct : ct idx = CellType.Fluid
  · by_cases hsum : s (idx - 1) + s (idx + 1) + s (idx - WIDTH) + s (idx + WIDTH) = 0
    · rw [projectCell_skip0 s ct st idx hct hsum]
      exact ⟨rfl, rfl⟩
    · rw [projectCell_active s ct st idx hct hsum]
      have hne : k ≠ idx := by
        intro he
        rw [he, hct] at hk
        exact absurd hk (by simp)
      constructor
      · show upd (upd st.2.1 idx _) (idx + 1) _ k = st.2.1 k
        by_cases hk1 : k = idx + 1
        · subst hk1
          rw [upd_self, hsk]
          ring
        · rw [upd_ne _ _ _ hk1, upd_ne _ _ _ hne]
      · show upd (upd st.2.2 idx _) (idx + WIDTH) _ k = st.2.2 k
        by_cases hk2 : k = idx + WIDTH
        · subst hk2
          rw [upd_self, hsk]
          ring
        · rw [upd_ne _ _ _ hk2, upd_ne _ _ _ hne]
  · rw [projectCell_skip s ct st idx hct]
    exact ⟨rfl, rfl⟩

theorem applyIncompressibility_fields (g : FluidSim) :
    (applyIncompressibilityToGrid g).p =
      ((projectSweep g.s g.cell_types)^[ INCOMPRESSIBILITY_ITERATIONS]
        (fun _ => 0, g.u, g.v)).1 ∧
    (applyIncompressibilityToGrid g).u =
      ((projectSweep g.s g.cell_types)^[ INCOMPRESSIBILITY_ITERATIONS]
        (fun _ => 0, g.u, g.v)).2.1 ∧
    (applyIncompressibilityToGrid g).v =
      ((projectSweep g.s g.cell_types)^[ INCOMPRESSIBILITY_ITERATIONS]
        (fun _ => 0, g.u, g.v)).2.2 := by
  refine ⟨rfl, rfl, rfl⟩

/-- Claim C8 amended: within the projection, non-Fluid cells' pressure
entries are never written (the initial reset leaves them exactly 0 in the
result), and — provided every Solid-classified cell has solid indicator 0,
as the classifier guarantees — a Solid cell's u and v samples are left
unchanged.  An Air cell's u and v samples are not covered: the counterexample
shows an adjacent Fluid cell's correction modifies them. -/
theorem c8_nonfluid_untouched (g : FluidSim) (k : Nat)
    (hcons : ∀ i, g.cell_types i = CellType.Solid → g.s i = 0)
    (hk : g.cell_types k ≠ CellType.Fluid) :
    (applyIncompressibilityToGrid g).p k = 0 ∧
    (g.cell_types k = CellType.Solid →
      (applyIncompressibilityToGrid g).u k = g.u k ∧
      (applyIncompressibilityToGrid g).v k = g.v k) := by
  obtain ⟨hp, hu, hv⟩ := applyIncompressibility_fields g
  set P : Grid × Grid × Grid → Prop := fun st =>
    st.1 k = 0 ∧
    (g.cell_types k = CellType.Solid → st.2.1 k = g.u k ∧ st.2.2 k = g.v k) with hP
  have hcell : ∀ (st : Grid × Grid × Grid) (idx : Nat),
      P st → P (projectCell g.s g.cell_types st idx) := by
    intro st idx h
    constructor
    · exact projectCell_pres_p g.s g.cell_types st idx k hk h.1
    · intro hsolid
      have huv := projectCell_pres_uv g.s g.cell_types st idx k hsolid (hcons k hsolid)
      exact ⟨huv.1.trans (h.2 hsolid).1, huv.2.trans (h.2 hsolid).2⟩
  have hsweep : ∀ st : Grid × Grid × Grid,
      P st → P (projectSweep g.s g.cell_types st) := by
    intro st h
    unfold projectSweep
    exact foldl_inv
      (fun a b hb => foldl_inv (fun a2 b2 hb2 => hcell a2 (b * WIDTH + b2) hb2) _ _ hb)
      _ _ h
  have hfin : P ((projectSweep g.s g.cell_types)^[ INCOMPRESSIBILITY_ITERATIONS]
      (fun _ => 0, g.u, g.v)) := by
    refine iterate_inv (fun a ha => hsweep a ha) _ _ ?_
    exact ⟨rfl, fun _ => ⟨rfl, rfl⟩⟩
  rw [hp, hu, hv]
  exact hfin

theorem c8_nonfluid_untouched_witness :
    (∀ i, gProj.cell_types i = CellType.Solid → gProj.s i = 0) ∧
    gProj.cell_types 0 ≠ CellType.Fluid ∧
    gProj.cell_types 0 = CellType.Solid ∧
    (applyIncompressibilityToGrid gProj).p 0 = 0 ∧
    (applyIncompressibilityToGrid gProj).u 0 = gProj.u 0 ∧
    (applyIncompressibilityToGrid gProj).v 0 = gProj.v 0 := by
  have hcons : ∀ i, gProj.cell_types i = CellType.Solid → gProj.s i = 0 := by
    intro i hi
    have hct : gProj.cell_types i = updCT (classifyBase sBorder) 8 CellType.Fluid i := rfl
    rw [hct] at hi
    by_cases h8 : i = 8
    · subst h8
      rw [updCT_self] at hi
      exact absurd hi (by simp)
    · rw [updCT_ne _ _ _ h8] at hi
      unfold classifyBase at hi
      by_cases h0 : sBorder i = 0
      · exact h0
      · rw [if_neg h0] at hi
        exact absurd hi (by simp)
  have hk : gProj.cell_types 0 ≠ CellType.Fluid := by with_unfolding_all decide
  have hsolid : gProj.cell_types 0 = CellType.Solid := by with_unfolding_all decide
  have h := c8_nonfluid_untouched gProj 0 hcons hk
  exact ⟨hcons, hk, hsolid, h.1, (h.2 hsolid).1, (h.2 hsolid).2⟩
